import Mathlib

/-!
ALJCepeda/logger: a shallow embedding of `src/index.js`.

The module is a process-local logger: a directory check (`stat`, then `mkdir`
when the directory is missing), three append-mode write streams (error, access,
console) and a handful of methods that write timestamped entries to them and
echo summaries through `console.log`.

The embedding is explicit state passing over a `World`: the `Logger` object
(`this`), the lines handed to `console.log`, the file-system calls made so far,
and a clock that `moment()` reads.  A JavaScript `throw` (and a rejected
promise) is the `error` side of `Except`, carrying the world as it stood when
the exception left the method, so the writes made before the throw stay
visible.
-/

namespace LoggerJs

/-! ## JavaScript values -/

mutual
/-- The JavaScript values a caller hands to the logger: primitives, arrays and
plain objects.  Numbers are the integers (a JavaScript number represents them
exactly below `2^53`); an object is the list of its own enumerable properties
in enumeration order.  Byte chunks (`Buffer`, typed arrays, `DataView`) are not
among these values. -/
inductive JSValue where
  | undefined : JSValue
  | null : JSValue
  | bool (b : Bool) : JSValue
  | num (n : Int) : JSValue
  | str (s : String) : JSValue
  | arr (items : JSList) : JSValue
  | obj (fields : JSFields) : JSValue
/-- The elements of an array. -/
inductive JSList where
  | nil : JSList
  | cons (head : JSValue) (tail : JSList) : JSList
/-- The properties of an object, as key and value. -/
inductive JSFields where
  | nil : JSFields
  | cons (key : String) (value : JSValue) (tail : JSFields) : JSFields
end

/-- An `Error` object: what `fs.stat` and `fs.mkdir` reject with, what a stream
throws, and what the request helpers receive. -/
structure JSError where
  name : String
  message : String
  code : String
  stack : String
  deriving DecidableEq

/-- What `Error.prototype.toString` returns, which is what a template literal
puts in place of an error. -/
def JSError.toString (e : JSError) : String :=
  if e.name = "" then e.message
  else if e.message = "" then e.name
  else e.name ++ ": " ++ e.message

/-- The lodash predicate `_.isUndefined`. -/
def isUndefined : JSValue → Bool
  | .undefined => true
  | _ => false

/-- The truthiness test of `if (v)`: `undefined`, `null`, `false`, `0` and the
empty string are falsy, every other value (every array and object) is truthy. -/
def truthy : JSValue → Bool
  | .undefined => false
  | .null => false
  | .bool b => b
  | .num n => n != 0
  | .str s => s != ""
  | .arr _ => true
  | .obj _ => true

/-! ## `JSON.stringify` -/

/-- A hexadecimal digit, lower case. -/
def hexDigit (n : Nat) : Char :=
  if n < 10 then Char.ofNat (48 + n) else Char.ofNat (87 + n)

/-- The escape of one character inside a JSON string. -/
def escapeChar (c : Char) : String :=
  if c = '"' then "\\\""
  else if c = '\\' then "\\\\"
  else if c.toNat = 8 then "\\b"
  else if c.toNat = 9 then "\\t"
  else if c.toNat = 10 then "\\n"
  else if c.toNat = 12 then "\\f"
  else if c.toNat = 13 then "\\r"
  else if c.toNat < 32 then
    "\\u00" ++ String.mk [hexDigit (c.toNat / 16), hexDigit (c.toNat % 16)]
  else String.mk [c]

/-- A string as JSON text: quoted, with the characters JSON requires escaped. -/
def quote (s : String) : String :=
  "\"" ++ String.join (s.toList.map escapeChar) ++ "\""

mutual
/-- The JSON text of a value, `none` where `JSON.stringify` gives `undefined`. -/
def serialize : JSValue → Option String
  | .undefined => none
  | .null => some "null"
  | .bool b => some (if b then "true" else "false")
  | .num n => some (toString n)
  | .str s => some (quote s)
  | .arr items => some ("[" ++ ",".intercalate (serializeItems items) ++ "]")
  | .obj fields => some ("\x7b" ++ ",".intercalate (serializeFields fields) ++ "\x7d")
/-- The JSON texts of the elements of an array; an `undefined` element is
written `null`. -/
def serializeItems : JSList → List String
  | .nil => []
  | .cons v rest => (serialize v).getD "null" :: serializeItems rest
/-- The JSON texts of the properties of an object; a property whose value is
`undefined` is left out. -/
def serializeFields : JSFields → List String
  | .nil => []
  | .cons k v rest =>
    match serialize v with
    | some s => (quote k ++ ":" ++ s) :: serializeFields rest
    | none => serializeFields rest
end

/-- The builtin `JSON.stringify` with one argument: a string, or `undefined`
for `undefined`. -/
def JSON.stringify (v : JSValue) : JSValue :=
  match serialize v with
  | some s => .str s
  | none => .undefined

/-! ## The world the logger runs in -/

/-- What `moment()` reads off the clock, as far as the timestamp shows it. -/
structure Moment where
  month : Nat
  day : Nat
  hour : Nat
  minute : Nat

/-- A number on two digits. -/
def pad2 (n : Nat) : String :=
  if n < 10 then "0" ++ toString n else toString n

/-- The rendering `moment().format('MM-DD HHmm')`. -/
def Moment.format (m : Moment) : String :=
  pad2 m.month ++ "-" ++ pad2 m.day ++ " " ++ pad2 m.hour ++ pad2 m.minute

/-- A stream returned by `fs.createWriteStream`: the path and flags it was
opened with, the names of the error observers attached with `on('error', ..)`,
and the text written through it so far. -/
structure WriteStream where
  path : String
  flags : String
  observers : List String
  written : String

/-- The `Logger` object. A stream field is `none` while it holds `null`. -/
structure Logger where
  dir : String
  errorCount : Nat
  accessCount : Nat
  errorStream : Option WriteStream
  accessStream : Option WriteStream
  consoleStream : Option WriteStream

/-- The constructor `new Logger(dir)`: `dir || 'logs'`, both counters at zero,
the three streams `null`. -/
def Logger.new (dir : Option String) : Logger :=
  { dir := match dir with
      | some d => if d = "" then "logs" else d
      | none => "logs"
    errorCount := 0
    accessCount := 0
    errorStream := none
    accessStream := none
    consoleStream := none }

/-- An argument of `console.log`: a value or an error object. -/
inductive ConsoleArg where
  | val (v : JSValue) : ConsoleArg
  | err (e : JSError) : ConsoleArg

/-- A call into the `fs` module. -/
inductive FsCall where
  | stat (path : String) : FsCall
  | mkdir (path : String) (mode : String) : FsCall
  | createWriteStream (path : String) (flags : String) : FsCall
  deriving DecidableEq

/-- Everything a method can read or change: the logger, the calls made to
`console.log` (one list of arguments per call), the calls made to `fs`, what
`fs.stat` and `fs.mkdir` answer, and the clock with the number of times it has
been read. -/
structure World where
  logger : Logger
  stdout : List (List ConsoleArg)
  fsCalls : List FsCall
  stat : String → Except JSError Unit
  mkdir : String → String → Except JSError Unit
  clock : Nat → Moment
  reads : Nat

/-- A thrown error, with the world reached when it left the method. A method
returns `Except Thrown (α × World)`: its value in a new world, or a throw. -/
abbrev Thrown := JSError × World

/-- The `TypeError` of reading a property of `null`. -/
def nullDereference : JSError :=
  { name := "TypeError", message := "Cannot read properties of null", code := "", stack := "" }

/-- The `TypeError` of `stream.write(null)`. -/
def nullChunk : JSError :=
  { name := "TypeError", message := "May not write null values to stream",
    code := "ERR_STREAM_NULL_VALUES", stack := "" }

/-- The `TypeError` of `stream.write(chunk)` for a chunk that is no string. -/
def invalidChunk : JSError :=
  { name := "TypeError", message := "The chunk argument must be of type string",
    code := "ERR_INVALID_ARG_TYPE", stack := "" }

/-- The method `write` of a byte stream (Node's `Writable`, not in object mode)
on the values of `JSValue`: a string is appended; a number, a boolean, `null`,
`undefined`, an array or a plain object is rejected with a `TypeError`, nothing
being converted to a string on the way. The byte chunks that `write` also
accepts (`Buffer`, typed arrays, `DataView`) are not values of `JSValue`, so
nothing is said about them. -/
def WriteStream.write (chunk : JSValue) (s : WriteStream) : Except JSError WriteStream :=
  match chunk with
  | .str text => .ok { s with written := s.written ++ text }
  | .null => .error nullChunk
  | _ => .error invalidChunk

/-- The statement `this.errorStream.write(chunk)`. -/
def errorStreamWrite (chunk : JSValue) (w : World) : Except Thrown (Unit × World) :=
  match w.logger.errorStream with
  | none => .error (nullDereference, w)
  | some s =>
    match s.write chunk with
    | .ok s1 => .ok ((), { w with logger := { w.logger with errorStream := some s1 } })
    | .error e => .error (e, w)

/-- The statement `this.accessStream.write(chunk)`. -/
def accessStreamWrite (chunk : JSValue) (w : World) : Except Thrown (Unit × World) :=
  match w.logger.accessStream with
  | none => .error (nullDereference, w)
  | some s =>
    match s.write chunk with
    | .ok s1 => .ok ((), { w with logger := { w.logger with accessStream := some s1 } })
    | .error e => .error (e, w)

/-- The statement `this.consoleStream.write(chunk)`. -/
def consoleStreamWrite (chunk : JSValue) (w : World) : Except Thrown (Unit × World) :=
  match w.logger.consoleStream with
  | none => .error (nullDereference, w)
  | some s =>
    match s.write chunk with
    | .ok s1 => .ok ((), { w with logger := { w.logger with consoleStream := some s1 } })
    | .error e => .error (e, w)

/-- The module constant `log`, which is `console.log`: one call, with its
arguments, is added to standard output. -/
def log (args : List ConsoleArg) (w : World) : World :=
  { w with stdout := w.stdout ++ [args] }

/-- The loop `args.forEach((arg) => { f(arg) })`; an exception thrown by `f`
ends it. -/
def forEach (f : JSValue → World → Except Thrown (Unit × World)) : List JSValue → World → Except Thrown (Unit × World)
  | [], w => .ok ((), w)
  | arg :: rest, w =>
    match f arg w with
    | .ok (_, w1) => forEach f rest w1
    | .error e => .error e

/-! ## Directory check and `init` -/

/-- The function `makeLogsDirectory`: `mkdir(dir, '0740')`, and on failure the
error is printed and thrown again. -/
def makeLogsDirectory (dir : String) (w : World) : Except Thrown (Unit × World) :=
  let w1 := { w with fsCalls := w.fsCalls ++ [FsCall.mkdir dir "0740"] }
  match w1.mkdir dir "0740" with
  | .ok _ => .ok ((), w1)
  | .error err => .error (err, log [.err err] w1)

/-- The function `initiateLogsDirectory`: `stat(dir)`; when it fails with code
`ENOENT` the directory is made, and any other failure is printed and thrown
again. -/
def initiateLogsDirectory (dir : String) (w : World) : Except Thrown (Unit × World) :=
  let w1 := { w with fsCalls := w.fsCalls ++ [FsCall.stat dir] }
  match w1.stat dir with
  | .ok _ => .ok ((), w1)
  | .error err =>
    if err.code = "ENOENT" then makeLogsDirectory dir w1
    else .error (err, log [.val (.str "Unexpected error while stating logs directory:"), .err err] w1)

/-- The call `fs.createWriteStream(path, { flags:'a' })` followed by
`.on('error', onStreamError(streamName))`. -/
def createWriteStream (path : String) (streamName : String) : WriteStream :=
  { path := path, flags := "a", observers := [streamName], written := "" }

/-- The observer `onStreamError(streamName)`: it prints the error and does
nothing else. -/
def onStreamError (streamName : String) (err : JSError) (w : World) : World :=
  log [.val (.str (streamName ++ " stream encountered error:")), .err err] w

/-- The method `init`: the directory check, then the three streams are opened at
their fixed paths, a line is printed and the promise resolves to `true`. A
rejected promise is the `error` side. -/
def Logger.init (w : World) : Except Thrown (Bool × World) :=
  match initiateLogsDirectory w.logger.dir w with
  | .error e => .error e
  | .ok (_, w1) =>
    let opened : Logger :=
      { w1.logger with
        errorStream := some (createWriteStream "logs/error.log" "Error")
        accessStream := some (createWriteStream "logs/access.log" "Access")
        consoleStream := some (createWriteStream "logs/console.log" "Console") }
    let w2 : World :=
      { w1 with
        logger := opened
        fsCalls := w1.fsCalls ++
          [FsCall.createWriteStream "logs/error.log" "a",
           FsCall.createWriteStream "logs/access.log" "a",
           FsCall.createWriteStream "logs/console.log" "a"] }
    .ok (true, log [.val (.str "Created Log Streams, switching to logger")] w2)

/-! ## The logging methods -/

/-- The method `timestamp`: the clock is read once and rendered. -/
def Logger.timestamp (w : World) : String × World :=
  ((w.clock w.reads).format, { w with reads := w.reads + 1 })

/-- The separator written after every error entry, as it stands in the source. -/
def separator : String :=
  "\n----------------------------------------------------------------\n"

/-- The method `log`. -/
def Logger.log (args : List JSValue) (w : World) : Except Thrown (Unit × World) := do
  let (timestamp, w) := Logger.timestamp w
  let (_, w) ← consoleStreamWrite (.str (timestamp ++ " ")) w
  let (_, w) ← forEach consoleStreamWrite args w
  let (_, w) ← consoleStreamWrite (.str "\n") w
  pure ((), LoggerJs.log ((JSValue.str timestamp :: args).map ConsoleArg.val) w)

/-- The method `error`. -/
def Logger.error (args : List JSValue) (w : World) : Except Thrown (Unit × World) := do
  let (timestamp, w) := Logger.timestamp w
  let (_, w) ← errorStreamWrite
    (.str ("[" ++ toString w.logger.errorCount ++ "]" ++ timestamp ++ " ")) w
  let (_, w) ← forEach errorStreamWrite args w
  let (_, w) ← errorStreamWrite (.str separator) w
  let (_, w) ← consoleStreamWrite
    (.str ("[" ++ toString w.logger.errorCount ++ "]" ++ timestamp ++ " Error encountered\n")) w
  let (_, w) ← Logger.log [.str ("[" ++ toString w.logger.errorCount ++ "] Error")] w
  pure ((), { w with logger := { w.logger with errorCount := w.logger.errorCount + 1 } })

/-- The socket of a request. -/
structure Connection where
  remoteAddress : String

/-- The request object, with the fields the logger reads; a field that is not
there is `undefined`. -/
structure Request where
  connection : Connection
  params : JSValue
  query : JSValue
  body : JSValue

/-- The method `access`. -/
def Logger.access (signature : String) (req : Request) (w : World) : Except Thrown (Unit × World) := do
  let (timestamp, w) := Logger.timestamp w
  let ip := req.connection.remoteAddress
  let (_, w) ← accessStreamWrite
    (.str ("[" ++ toString w.logger.accessCount ++ "]" ++ timestamp ++
      " (" ++ signature ++ ") " ++ ip ++ "\n")) w
  let (_, w) ← accessStreamWrite (JSON.stringify req.params) w
  let (_, w) ← accessStreamWrite (.str "\n") w
  let (_, w) ← accessStreamWrite (JSON.stringify req.query) w
  let (_, w) ← accessStreamWrite (.str "\n") w
  let (_, w) ←
    if !isUndefined req.body then do
      let (_, w) ← accessStreamWrite (JSON.stringify req.body) w
      accessStreamWrite (.str "\n") w
    else pure ((), w)
  let (_, w) ← Logger.log [.str ("[" ++ toString w.logger.accessCount ++ "] Access")] w
  pure ((), { w with logger := { w.logger with accessCount := w.logger.accessCount + 1 } })

/-- The method `erroredRequest`. -/
def Logger.erroredRequest (err : JSError) (req : Request) (w : World) : Except Thrown (Unit × World) := do
  let (_, w) ← Logger.error [.str "Request errored: ", .str err.stack] w
  let (_, w) ←
    if truthy req.params then Logger.error [JSON.stringify req.params] w
    else pure ((), w)
  if truthy req.body then Logger.error [JSON.stringify req.body] w
  else pure ((), w)

/-- The response handle: the status set with `status` and the bodies sent with
`send`. -/
structure Response where
  statusCode : Option Nat
  sent : List String
  deriving DecidableEq

/-- The call `res.status(code)`, which returns the response. -/
def Response.status (code : Nat) (res : Response) : Response :=
  { res with statusCode := some code }

/-- The call `res.send(body)`, which returns the response. -/
def Response.send (body : String) (res : Response) : Response :=
  { res with sent := res.sent ++ [body] }

/-- The method `internalError`: the handler it returns. -/
def Logger.internalError (id : String) (res : Response) :
    JSError → World → Except Thrown (Response × World) :=
  fun err w => do
    let (_, w) ← Logger.error [.str (id ++ ": " ++ err.toString)] w
    pure ((res.status 500).send "This incident has been logged and will be fixed soon!", w)

/-! ## Sequences of calls, and the measures the statements use -/

/-- One call of a logging method, with its arguments. -/
inductive Call where
  | error (args : List JSValue) : Call
  | access (signature : String) (req : Request) : Call
  | log (args : List JSValue) : Call

/-- The call made on the logger. -/
def Call.run : Call → World → Except Thrown (Unit × World)
  | .error args, w => Logger.error args w
  | .access signature req, w => Logger.access signature req w
  | .log args, w => Logger.log args w

/-- Calls made one after the other; a throw ends the sequence. -/
def runAll : List Call → World → Except Thrown (Unit × World)
  | [], w => .ok ((), w)
  | c :: rest, w =>
    match c.run w with
    | .ok (_, w1) => runAll rest w1
    | .error e => .error e

/-- The number of `error` calls in a sequence. -/
def errorCalls : List Call → Nat
  | [] => 0
  | .error _ :: rest => errorCalls rest + 1
  | _ :: rest => errorCalls rest

/-- The number of `access` calls in a sequence. -/
def accessCalls : List Call → Nat
  | [] => 0
  | .access _ _ :: rest => accessCalls rest + 1
  | _ :: rest => accessCalls rest

/-- The counters of `w1` are those of `w`. -/
def SameCounts (w w1 : World) : Prop :=
  w1.logger.errorCount = w.logger.errorCount ∧ w1.logger.accessCount = w.logger.accessCount

/-- The world an outcome ends in, returned or thrown. -/
def worldOf {α : Type} : Except Thrown (α × World) → World
  | .ok (_, w) => w
  | .error (_, w) => w

/-- Whether a call returns in the world `w`. -/
def Call.completes (c : Call) (w : World) : Bool :=
  match c.run w with
  | .ok _ => true
  | .error _ => false

/-- Calls made one after the other by a caller that catches what a call throws
and goes on with the next one. -/
def runCatching : List Call → World → World
  | [], w => w
  | c :: rest, w => runCatching rest (worldOf (c.run w))

/-- The number of `error` calls of a sequence that return, when the sequence is
run from `w` by such a caller. -/
def completedErrorCalls : List Call → World → Nat
  | [], _ => 0
  | .error args :: rest, w =>
    (if (Call.error args).completes w then 1 else 0) +
      completedErrorCalls rest (worldOf ((Call.error args).run w))
  | c :: rest, w => completedErrorCalls rest (worldOf (c.run w))

/-- The number of `access` calls of a sequence that return, when the sequence
is run from `w` by such a caller. -/
def completedAccessCalls : List Call → World → Nat
  | [], _ => 0
  | .access signature req :: rest, w =>
    (if (Call.access signature req).completes w then 1 else 0) +
      completedAccessCalls rest (worldOf ((Call.access signature req).run w))
  | c :: rest, w => completedAccessCalls rest (worldOf (c.run w))

/-- The text written so far to a stream, empty while the stream is `null`. -/
def writtenTo : Option WriteStream → String
  | some s => s.written
  | none => ""

/-- The number of lines in the console sink: the newline characters written. -/
def consoleLines (w : World) : Nat :=
  (writtenTo w.logger.consoleStream).toList.count (Char.ofNat 10)

/-! ## Concrete worlds -/

/-- A clock stopped on the 7th of March at 15:42. -/
def demoClock : Nat → Moment :=
  fun _ => { month := 3, day := 7, hour := 15, minute := 42 }

/-- An `fs` error with the given code. -/
def fsError (code : String) : JSError :=
  { name := "Error", message := code ++ ": stat logs", code := code, stack := "" }

/-- A world before `init`, on a file system where the directory exists. -/
def freshWorld : World :=
  { logger := Logger.new none
    stdout := []
    fsCalls := []
    stat := fun _ => .ok ()
    mkdir := fun _ _ => .ok ()
    clock := demoClock
    reads := 0 }

/-- A stream just opened. -/
def demoStream (path : String) (streamName : String) : WriteStream :=
  createWriteStream path streamName

/-- A world after `init`, three errors in. -/
def demoWorld : World :=
  { freshWorld with
    logger :=
      { dir := "logs"
        errorCount := 3
        accessCount := 0
        errorStream := some (demoStream "logs/error.log" "Error")
        accessStream := some (demoStream "logs/access.log" "Access")
        consoleStream := some (demoStream "logs/console.log" "Console") } }

/-- The request of the access example: remote address `1.2.3.4`, `params` the
empty object, `query` the object `{a:1}`, no `body`. -/
def demoRequest : Request :=
  { connection := { remoteAddress := "1.2.3.4" }
    params := .obj .nil
    query := .obj (.cons "a" (.num 1) .nil)
    body := .undefined }

/-- An error with a stack. -/
def demoError : JSError :=
  { name := "Error", message := "boom", code := "", stack := "Error: boom\n    at handler" }

/-- A request whose `params` is the empty object and whose `body` is the
number `0`: both fields are there, and the body is falsy. -/
def zeroBodyRequest : Request :=
  { connection := { remoteAddress := "1.2.3.4" }
    params := .obj .nil
    query := .obj .nil
    body := .num 0 }

/-- A request with a body: `params` is `{id:7}` and `body` is `{name:"x"}`. -/
def postRequest : Request :=
  { connection := { remoteAddress := "1.2.3.4" }
    params := .obj (.cons "id" (.num 7) .nil)
    query := .obj .nil
    body := .obj (.cons "name" (.str "x") .nil) }

/-- A request that exposes `connection.remoteAddress` and nothing else. -/
def bareRequest : Request :=
  { connection := { remoteAddress := "1.2.3.4" }
    params := .undefined
    query := .undefined
    body := .undefined }

/-- A response handle on which nothing has been set or sent. -/
def demoResponse : Response :=
  { statusCode := none, sent := [] }

/-- A sequence of calls: two errors, one access, one log. -/
def demoCalls : List Call :=
  [.error [.str "boom"], .access "login" demoRequest, .log [.str "hello"],
   .error [.str "again"]]

/-- A sequence in which three calls throw: `error(42)`, `access` on a request
without `params`, and `log(null)`. -/
def mixedCalls : List Call :=
  [.error [.str "boom"], .error [.num 42], .access "login" bareRequest,
   .access "login" demoRequest, .log [.null]]

/-- A world before `init` where the directory is missing and can be made. -/
def missingDirWorld : World :=
  { freshWorld with stat := fun _ => .error (fsError "ENOENT") }

/-- A world before `init` where `stat` is refused. -/
def deniedWorld : World :=
  { freshWorld with stat := fun _ => .error (fsError "EACCES") }

/-- A world before `init` where the directory is missing and cannot be made. -/
def readOnlyWorld : World :=
  { freshWorld with
    stat := fun _ => .error (fsError "ENOENT")
    mkdir := fun _ _ => .error (fsError "EROFS") }

/-! ## Lemmas on strings and writes -/

theorem join_cons (a : String) (rest : List String) :
    String.join (a :: rest) = a ++ String.join rest := by
  apply String.ext
  simp [String.data_join]

theorem join_nil : String.join [] = "" := rfl

theorem forEach_append (f : JSValue → World → Except Thrown (Unit × World))
    (xs ys : List JSValue) (w : World) :
    forEach f (xs ++ ys) w =
      match forEach f xs w with
      | .ok (_, w1) => forEach f ys w1
      | .error e => .error e := by
  induction xs generalizing w with
  | nil => simp [forEach]
  | cons x rest ih =>
    simp only [List.cons_append, forEach]
    cases f x w with
    | error e => rfl
    | ok r => exact ih r.2

theorem forEach_errorStreamWrite_strs (args : List String)
    (d : String) (ec ac : Nat) (es : WriteStream) (a c : Option WriteStream)
    (so : List (List ConsoleArg)) (fc : List FsCall) (st : String → Except JSError Unit)
    (mk : String → String → Except JSError Unit) (cl : Nat → Moment) (rd : Nat) :
    forEach errorStreamWrite (args.map JSValue.str)
        ⟨⟨d, ec, ac, some es, a, c⟩, so, fc, st, mk, cl, rd⟩ =
      .ok ((), ⟨⟨d, ec, ac, some { es with written := es.written ++ String.join args }, a, c⟩,
        so, fc, st, mk, cl, rd⟩) := by
  induction args generalizing es with
  | nil => simp [forEach, join_nil]
  | cons x rest ih =>
    simp only [List.map_cons, forEach, errorStreamWrite, WriteStream.write]
    rw [ih]
    simp [join_cons, String.append_assoc]

theorem forEach_consoleStreamWrite_strs (args : List String)
    (d : String) (ec ac : Nat) (e a : Option WriteStream) (cs : WriteStream)
    (so : List (List ConsoleArg)) (fc : List FsCall) (st : String → Except JSError Unit)
    (mk : String → String → Except JSError Unit) (cl : Nat → Moment) (rd : Nat) :
    forEach consoleStreamWrite (args.map JSValue.str)
        ⟨⟨d, ec, ac, e, a, some cs⟩, so, fc, st, mk, cl, rd⟩ =
      .ok ((), ⟨⟨d, ec, ac, e, a, some { cs with written := cs.written ++ String.join args }⟩,
        so, fc, st, mk, cl, rd⟩) := by
  induction args generalizing cs with
  | nil => simp [forEach, join_nil]
  | cons x rest ih =>
    simp only [List.map_cons, forEach, consoleStreamWrite, WriteStream.write]
    rw [ih]
    simp [join_cons, String.append_assoc]

/-- The method `log` on string arguments, in closed form. -/
theorem log_closed (args : List String)
    (d : String) (ec ac : Nat) (e a : Option WriteStream) (cs : WriteStream)
    (so : List (List ConsoleArg)) (fc : List FsCall) (st : String → Except JSError Unit)
    (mk : String → String → Except JSError Unit) (cl : Nat → Moment) (rd : Nat) :
    Logger.log (args.map JSValue.str) ⟨⟨d, ec, ac, e, a, some cs⟩, so, fc, st, mk, cl, rd⟩ =
      .ok ((), ⟨⟨d, ec, ac, e, a, some { cs with
          written := cs.written ++ ((cl rd).format ++ " " ++ String.join args ++ "\n") }⟩,
        so ++ [(JSValue.str (cl rd).format :: args.map JSValue.str).map ConsoleArg.val],
        fc, st, mk, cl, rd + 1⟩) := by
  simp only [Logger.log, Logger.timestamp, bind, Except.bind, pure, Except.pure,
    consoleStreamWrite, WriteStream.write, forEach_consoleStreamWrite_strs]
  simp [LoggerJs.log, String.append_assoc]

/-- The method `error` on string arguments, in closed form. -/
theorem error_closed (args : List String)
    (d : String) (ec ac : Nat) (es : WriteStream) (a : Option WriteStream) (cs : WriteStream)
    (so : List (List ConsoleArg)) (fc : List FsCall) (st : String → Except JSError Unit)
    (mk : String → String → Except JSError Unit) (cl : Nat → Moment) (rd : Nat) :
    Logger.error (args.map JSValue.str)
        ⟨⟨d, ec, ac, some es, a, some cs⟩, so, fc, st, mk, cl, rd⟩ =
      .ok ((), ⟨⟨d, ec + 1, ac,
          some { es with
            written := es.written ++
              ("[" ++ toString ec ++ "]" ++ (cl rd).format ++ " " ++ String.join args ++
                separator) },
          a,
          some { cs with
            written := cs.written ++
              ("[" ++ toString ec ++ "]" ++ (cl rd).format ++ " Error encountered\n" ++
                ((cl (rd + 1)).format ++ " " ++ ("[" ++ toString ec ++ "] Error") ++ "\n")) }⟩,
        so ++ [[ConsoleArg.val (.str (cl (rd + 1)).format),
                ConsoleArg.val (.str ("[" ++ toString ec ++ "] Error"))]],
        fc, st, mk, cl, rd + 2⟩) := by
  have hlog := fun (x : String) => log_closed [x]
  simp only [List.map_cons, List.map_nil] at hlog
  simp only [Logger.error, Logger.timestamp, bind, Except.bind, pure, Except.pure,
    errorStreamWrite, consoleStreamWrite, WriteStream.write, forEach_errorStreamWrite_strs, hlog]
  simp [join_cons, join_nil, String.append_assoc]

theorem serialize_eq_none (v : JSValue) : serialize v = none ↔ v = JSValue.undefined := by
  cases v <;> simp [serialize]

theorem isUndefined_eq_true (v : JSValue) : isUndefined v = true ↔ v = JSValue.undefined := by
  cases v <;> simp [isUndefined]

theorem serialize_of_defined (v : JSValue) (h : v ≠ JSValue.undefined) :
    ∃ s, serialize v = some s := by
  cases hs : serialize v with
  | none => exact absurd ((serialize_eq_none v).1 hs) h
  | some s => exact ⟨s, rfl⟩

theorem defined_of_truthy (v : JSValue) (h : truthy v = true) : v ≠ JSValue.undefined := by
  intro hv
  subst hv
  simp [truthy] at h

/-- The method `access` on a request whose `params` and `query` serialise, in
closed form; `bodyText` is what the `body` branch writes. -/
theorem access_closed (signature ip ps qs bodyText : String) (p q b : JSValue)
    (hp : serialize p = some ps) (hq : serialize q = some qs)
    (hb : (b = JSValue.undefined ∧ bodyText = "") ∨
      (∃ bs, serialize b = some bs ∧ bodyText = bs ++ "\n"))
    (d : String) (ec ac : Nat) (e : Option WriteStream) (s cs : WriteStream)
    (so : List (List ConsoleArg)) (fc : List FsCall) (st : String → Except JSError Unit)
    (mk : String → String → Except JSError Unit) (cl : Nat → Moment) (rd : Nat) :
    Logger.access signature ⟨⟨ip⟩, p, q, b⟩
        ⟨⟨d, ec, ac, e, some s, some cs⟩, so, fc, st, mk, cl, rd⟩ =
      .ok ((), ⟨⟨d, ec, ac + 1, e,
          some { s with
            written := s.written ++
              ("[" ++ toString ac ++ "]" ++ (cl rd).format ++ " (" ++ signature ++ ") " ++ ip ++
                "\n" ++ ps ++ "\n" ++ qs ++ "\n" ++ bodyText) },
          some { cs with
            written := cs.written ++
              ((cl (rd + 1)).format ++ " " ++ ("[" ++ toString ac ++ "] Access") ++ "\n") }⟩,
        so ++ [[ConsoleArg.val (.str (cl (rd + 1)).format),
                ConsoleArg.val (.str ("[" ++ toString ac ++ "] Access"))]],
        fc, st, mk, cl, rd + 2⟩) := by
  have hlog := fun (x : String) => log_closed [x]
  simp only [List.map_cons, List.map_nil] at hlog
  rcases hb with ⟨hb, ht⟩ | ⟨bs, hb, ht⟩
  · subst hb ht
    simp only [Logger.access, Logger.timestamp, bind, Except.bind, pure, Except.pure,
      accessStreamWrite, WriteStream.write, JSON.stringify, hp, hq, isUndefined, hlog]
    simp [join_cons, join_nil, String.append_assoc]
  · have hu : isUndefined b = false := by
      cases h : isUndefined b with
      | false => rfl
      | true =>
        rw [(isUndefined_eq_true b).1 h] at hb
        simp [serialize] at hb
    subst ht
    simp only [Logger.access, Logger.timestamp, bind, Except.bind, pure, Except.pure,
      accessStreamWrite, WriteStream.write, JSON.stringify, hp, hq, hb, hu, hlog]
    simp [join_cons, join_nil, String.append_assoc]

/-! ## Counters under arbitrary arguments -/

theorem bind_eq_ok {ε α β : Type} (x : Except ε α) (f : α → Except ε β) (r : β)
    (h : (x >>= f) = .ok r) : ∃ a, x = .ok a ∧ f a = .ok r := by
  cases x with
  | error e => simp [bind, Except.bind] at h
  | ok a => exact ⟨a, rfl, h⟩

theorem errorStreamWrite_counts (c : JSValue) (w w1 : World) (u : Unit)
    (h : errorStreamWrite c w = .ok (u, w1)) : SameCounts w w1 := by
  unfold errorStreamWrite at h
  split at h
  · simp at h
  · split at h
    · simp only [Except.ok.injEq, Prod.mk.injEq] at h
      rw [← h.2]
      exact ⟨rfl, rfl⟩
    · simp at h

theorem accessStreamWrite_counts (c : JSValue) (w w1 : World) (u : Unit)
    (h : accessStreamWrite c w = .ok (u, w1)) : SameCounts w w1 := by
  unfold accessStreamWrite at h
  split at h
  · simp at h
  · split at h
    · simp only [Except.ok.injEq, Prod.mk.injEq] at h
      rw [← h.2]
      exact ⟨rfl, rfl⟩
    · simp at h

theorem consoleStreamWrite_counts (c : JSValue) (w w1 : World) (u : Unit)
    (h : consoleStreamWrite c w = .ok (u, w1)) : SameCounts w w1 := by
  unfold consoleStreamWrite at h
  split at h
  · simp at h
  · split at h
    · simp only [Except.ok.injEq, Prod.mk.injEq] at h
      rw [← h.2]
      exact ⟨rfl, rfl⟩
    · simp at h

theorem SameCounts.trans {w w1 w2 : World} (h1 : SameCounts w w1) (h2 : SameCounts w1 w2) :
    SameCounts w w2 :=
  ⟨h2.1.trans h1.1, h2.2.trans h1.2⟩

theorem forEach_counts (f : JSValue → World → Except Thrown (Unit × World))
    (hf : ∀ c w w1 u, f c w = .ok (u, w1) → SameCounts w w1)
    (args : List JSValue) (w w1 : World) (u : Unit)
    (h : forEach f args w = .ok (u, w1)) : SameCounts w w1 := by
  induction args generalizing w with
  | nil =>
    simp only [forEach, Except.ok.injEq, Prod.mk.injEq] at h
    rw [← h.2]
    exact ⟨rfl, rfl⟩
  | cons a rest ih =>
    simp only [forEach] at h
    cases hfa : f a w with
    | error e => simp [hfa] at h
    | ok r =>
      rw [hfa] at h
      exact (hf a w r.2 r.1 hfa).trans (ih r.2 h)

theorem log_counts (args : List JSValue) (w w1 : World) (u : Unit)
    (h : Logger.log args w = .ok (u, w1)) : SameCounts w w1 := by
  unfold Logger.log at h
  simp only [Logger.timestamp] at h
  obtain ⟨⟨u1, v1⟩, h1, h⟩ := bind_eq_ok _ _ _ h
  obtain ⟨⟨u2, v2⟩, h2, h⟩ := bind_eq_ok _ _ _ h
  obtain ⟨⟨u3, v3⟩, h3, h⟩ := bind_eq_ok _ _ _ h
  simp only [pure, Except.pure, Except.ok.injEq, Prod.mk.injEq] at h
  have c1 := consoleStreamWrite_counts _ _ _ _ h1
  have c2 := forEach_counts _ consoleStreamWrite_counts _ _ _ _ h2
  have c3 := consoleStreamWrite_counts _ _ _ _ h3
  have c := (c1.trans c2).trans c3
  rw [← h.2]
  exact c

theorem error_counts (args : List JSValue) (w w1 : World) (u : Unit)
    (h : Logger.error args w = .ok (u, w1)) :
    w1.logger.errorCount = w.logger.errorCount + 1 ∧
      w1.logger.accessCount = w.logger.accessCount := by
  unfold Logger.error at h
  simp only [Logger.timestamp] at h
  obtain ⟨⟨u1, v1⟩, h1, h⟩ := bind_eq_ok _ _ _ h
  obtain ⟨⟨u2, v2⟩, h2, h⟩ := bind_eq_ok _ _ _ h
  obtain ⟨⟨u3, v3⟩, h3, h⟩ := bind_eq_ok _ _ _ h
  obtain ⟨⟨u4, v4⟩, h4, h⟩ := bind_eq_ok _ _ _ h
  obtain ⟨⟨u5, v5⟩, h5, h⟩ := bind_eq_ok _ _ _ h
  simp only [pure, Except.pure, Except.ok.injEq, Prod.mk.injEq] at h
  have c1 := errorStreamWrite_counts _ _ _ _ h1
  have c2 := forEach_counts _ errorStreamWrite_counts _ _ _ _ h2
  have c3 := errorStreamWrite_counts _ _ _ _ h3
  have c4 := consoleStreamWrite_counts _ _ _ _ h4
  have c5 := log_counts _ _ _ _ h5
  have c := (((c1.trans c2).trans c3).trans c4).trans c5
  rw [← h.2]
  exact ⟨by simpa using c.1, c.2⟩

theorem access_counts (signature : String) (req : Request) (w w1 : World) (u : Unit)
    (h : Logger.access signature req w = .ok (u, w1)) :
    w1.logger.errorCount = w.logger.errorCount ∧
      w1.logger.accessCount = w.logger.accessCount + 1 := by
  unfold Logger.access at h
  simp only [Logger.timestamp] at h
  obtain ⟨⟨u1, v1⟩, h1, h⟩ := bind_eq_ok _ _ _ h
  obtain ⟨⟨u2, v2⟩, h2, h⟩ := bind_eq_ok _ _ _ h
  obtain ⟨⟨u3, v3⟩, h3, h⟩ := bind_eq_ok _ _ _ h
  obtain ⟨⟨u4, v4⟩, h4, h⟩ := bind_eq_ok _ _ _ h
  obtain ⟨⟨u5, v5⟩, h5, h⟩ := bind_eq_ok _ _ _ h
  have c1 := accessStreamWrite_counts _ _ _ _ h1
  have c2 := accessStreamWrite_counts _ _ _ _ h2
  have c3 := accessStreamWrite_counts _ _ _ _ h3
  have c4 := accessStreamWrite_counts _ _ _ _ h4
  have c5 := accessStreamWrite_counts _ _ _ _ h5
  have c15 := (((c1.trans c2).trans c3).trans c4).trans c5
  split at h
  · obtain ⟨⟨u6, v6⟩, h6, h⟩ := bind_eq_ok _ _ _ h
    obtain ⟨⟨u7, v7⟩, h7, h⟩ := bind_eq_ok _ _ _ h
    obtain ⟨⟨u8, v8⟩, h8, h⟩ := bind_eq_ok _ _ _ h
    simp only [pure, Except.pure, Except.ok.injEq, Prod.mk.injEq] at h
    have c6 := accessStreamWrite_counts _ _ _ _ h6
    have c7 := accessStreamWrite_counts _ _ _ _ h7
    have c8 := log_counts _ _ _ _ h8
    have c := ((c15.trans c6).trans c7).trans c8
    rw [← h.2]
    exact ⟨c.1, by simpa using c.2⟩
  · obtain ⟨⟨u6, v6⟩, h6, h⟩ := bind_eq_ok _ _ _ h
    obtain ⟨⟨u7, v7⟩, h7, h⟩ := bind_eq_ok _ _ _ h
    simp only [pure, Except.pure, Except.ok.injEq, Prod.mk.injEq] at h h6
    have c7 := log_counts _ _ _ _ h7
    have c6 : SameCounts v5 v6 := by
      rw [← h6.2]
      exact ⟨rfl, rfl⟩
    have c := (c15.trans c6).trans c7
    rw [← h.2]
    exact ⟨c.1, by simpa using c.2⟩

/-! ## `init` and `erroredRequest` in closed form -/

/-- The separator is a newline, sixty-four dashes and a newline. -/
theorem separator_eq : separator = "\n" ++ String.mk (List.replicate 64 '-') ++ "\n" := by
  decide

/-- The method `erroredRequest` when `params` and `body` are both truthy. -/
theorem erroredRequest_closed (err : JSError) (conn : Connection) (p q b : JSValue)
    (ps bs : String) (hp : truthy p = true) (hb : truthy b = true)
    (hps : serialize p = some ps) (hbs : serialize b = some bs)
    (d : String) (ec ac : Nat) (es : WriteStream) (a : Option WriteStream) (cs : WriteStream)
    (so : List (List ConsoleArg)) (fc : List FsCall) (st : String → Except JSError Unit)
    (mk : String → String → Except JSError Unit) (cl : Nat → Moment) (rd : Nat) :
    Logger.erroredRequest err ⟨conn, p, q, b⟩
        ⟨⟨d, ec, ac, some es, a, some cs⟩, so, fc, st, mk, cl, rd⟩ =
      .ok ((), ⟨⟨d, ec + 3, ac,
          some { es with
            written := es.written ++
              (("[" ++ toString ec ++ "]" ++ (cl rd).format ++ " " ++
                  ("Request errored: " ++ err.stack) ++ separator) ++
                ("[" ++ toString (ec + 1) ++ "]" ++ (cl (rd + 2)).format ++ " " ++ ps ++
                  separator) ++
                ("[" ++ toString (ec + 2) ++ "]" ++ (cl (rd + 4)).format ++ " " ++ bs ++
                  separator)) },
          a,
          some { cs with
            written := cs.written ++
              (("[" ++ toString ec ++ "]" ++ (cl rd).format ++ " Error encountered\n" ++
                  ((cl (rd + 1)).format ++ " " ++ ("[" ++ toString ec ++ "] Error") ++ "\n")) ++
                ("[" ++ toString (ec + 1) ++ "]" ++ (cl (rd + 2)).format ++
                    " Error encountered\n" ++
                  ((cl (rd + 3)).format ++ " " ++ ("[" ++ toString (ec + 1) ++ "] Error") ++
                    "\n")) ++
                ("[" ++ toString (ec + 2) ++ "]" ++ (cl (rd + 4)).format ++
                    " Error encountered\n" ++
                  ((cl (rd + 5)).format ++ " " ++ ("[" ++ toString (ec + 2) ++ "] Error") ++
                    "\n"))) }⟩,
        so ++ [[ConsoleArg.val (.str (cl (rd + 1)).format),
                ConsoleArg.val (.str ("[" ++ toString ec ++ "] Error"))],
               [ConsoleArg.val (.str (cl (rd + 3)).format),
                ConsoleArg.val (.str ("[" ++ toString (ec + 1) ++ "] Error"))],
               [ConsoleArg.val (.str (cl (rd + 5)).format),
                ConsoleArg.val (.str ("[" ++ toString (ec + 2) ++ "] Error"))]],
        fc, st, mk, cl, rd + 6⟩) := by
  have h1 := fun (x : String) => error_closed [x]
  have h2 := fun (x y : String) => error_closed [x, y]
  simp only [List.map_cons, List.map_nil] at h1 h2
  simp only [Logger.erroredRequest, bind, Except.bind, pure, Except.pure, JSON.stringify,
    hp, hb, hps, hbs, if_true, h1, h2]
  simp [join_cons, join_nil, String.append_assoc, Nat.add_assoc]

theorem bind_eq_error {ε α β : Type} (x : Except ε α) (f : α → Except ε β) (t : ε)
    (h : (x >>= f) = .error t) : x = .error t ∨ ∃ a, x = .ok a ∧ f a = .error t := by
  cases x with
  | error e =>
    left
    simpa [bind, Except.bind] using h
  | ok a => exact Or.inr ⟨a, rfl, h⟩

theorem SameCounts.refl (w : World) : SameCounts w w := ⟨rfl, rfl⟩

theorem errorStreamWrite_thrown (c : JSValue) (w w1 : World) (e : JSError)
    (h : errorStreamWrite c w = .error (e, w1)) : SameCounts w w1 := by
  unfold errorStreamWrite at h
  split at h
  · simp only [Except.error.injEq, Prod.mk.injEq] at h
    rw [← h.2]
    exact SameCounts.refl w
  · split at h
    · simp at h
    · simp only [Except.error.injEq, Prod.mk.injEq] at h
      rw [← h.2]
      exact SameCounts.refl w

theorem accessStreamWrite_thrown (c : JSValue) (w w1 : World) (e : JSError)
    (h : accessStreamWrite c w = .error (e, w1)) : SameCounts w w1 := by
  unfold accessStreamWrite at h
  split at h
  · simp only [Except.error.injEq, Prod.mk.injEq] at h
    rw [← h.2]
    exact SameCounts.refl w
  · split at h
    · simp at h
    · simp only [Except.error.injEq, Prod.mk.injEq] at h
      rw [← h.2]
      exact SameCounts.refl w

theorem consoleStreamWrite_thrown (c : JSValue) (w w1 : World) (e : JSError)
    (h : consoleStreamWrite c w = .error (e, w1)) : SameCounts w w1 := by
  unfold consoleStreamWrite at h
  split at h
  · simp only [Except.error.injEq, Prod.mk.injEq] at h
    rw [← h.2]
    exact SameCounts.refl w
  · split at h
    · simp at h
    · simp only [Except.error.injEq, Prod.mk.injEq] at h
      rw [← h.2]
      exact SameCounts.refl w

theorem forEach_thrown (f : JSValue → World → Except Thrown (Unit × World))
    (hf : ∀ c w w1 u, f c w = .ok (u, w1) → SameCounts w w1)
    (hg : ∀ c w w1 e, f c w = .error (e, w1) → SameCounts w w1)
    (args : List JSValue) (w w1 : World) (e : JSError)
    (h : forEach f args w = .error (e, w1)) : SameCounts w w1 := by
  induction args generalizing w with
  | nil => simp [forEach] at h
  | cons a rest ih =>
    simp only [forEach] at h
    cases hfa : f a w with
    | error t =>
      rw [hfa] at h
      simp only [Except.error.injEq] at h
      subst h
      exact hg a w w1 e hfa
    | ok r =>
      rw [hfa] at h
      exact (hf a w r.2 r.1 hfa).trans (ih r.2 h)

theorem log_thrown (args : List JSValue) (w w1 : World) (e : JSError)
    (h : Logger.log args w = .error (e, w1)) : SameCounts w w1 := by
  unfold Logger.log at h
  simp only [Logger.timestamp] at h
  rcases bind_eq_error _ _ _ h with h1 | ⟨⟨u1, v1⟩, h1, h⟩
  · have c0 := consoleStreamWrite_thrown _ _ _ _ h1
    exact c0
  have c1 := consoleStreamWrite_counts _ _ _ _ h1
  rcases bind_eq_error _ _ _ h with h2 | ⟨⟨u2, v2⟩, h2, h⟩
  · exact c1.trans
      (forEach_thrown _ consoleStreamWrite_counts consoleStreamWrite_thrown _ _ _ _ h2)
  have c2 := c1.trans (forEach_counts _ consoleStreamWrite_counts _ _ _ _ h2)
  rcases bind_eq_error _ _ _ h with h3 | ⟨⟨u3, v3⟩, h3, h⟩
  · exact c2.trans (consoleStreamWrite_thrown _ _ _ _ h3)
  simp [pure, Except.pure] at h

theorem error_thrown (args : List JSValue) (w w1 : World) (e : JSError)
    (h : Logger.error args w = .error (e, w1)) : SameCounts w w1 := by
  unfold Logger.error at h
  simp only [Logger.timestamp] at h
  rcases bind_eq_error _ _ _ h with h1 | ⟨⟨u1, v1⟩, h1, h⟩
  · have c0 := errorStreamWrite_thrown _ _ _ _ h1
    exact c0
  have c1 := errorStreamWrite_counts _ _ _ _ h1
  rcases bind_eq_error _ _ _ h with h2 | ⟨⟨u2, v2⟩, h2, h⟩
  · exact c1.trans (forEach_thrown _ errorStreamWrite_counts errorStreamWrite_thrown _ _ _ _ h2)
  have c2 := c1.trans (forEach_counts _ errorStreamWrite_counts _ _ _ _ h2)
  rcases bind_eq_error _ _ _ h with h3 | ⟨⟨u3, v3⟩, h3, h⟩
  · exact c2.trans (errorStreamWrite_thrown _ _ _ _ h3)
  have c3 := c2.trans (errorStreamWrite_counts _ _ _ _ h3)
  rcases bind_eq_error _ _ _ h with h4 | ⟨⟨u4, v4⟩, h4, h⟩
  · exact c3.trans (consoleStreamWrite_thrown _ _ _ _ h4)
  have c4 := c3.trans (consoleStreamWrite_counts _ _ _ _ h4)
  rcases bind_eq_error _ _ _ h with h5 | ⟨⟨u5, v5⟩, h5, h⟩
  · exact c4.trans (log_thrown _ _ _ _ h5)
  simp [pure, Except.pure] at h

theorem access_thrown (signature : String) (req : Request) (w w1 : World) (e : JSError)
    (h : Logger.access signature req w = .error (e, w1)) : SameCounts w w1 := by
  unfold Logger.access at h
  simp only [Logger.timestamp] at h
  rcases bind_eq_error _ _ _ h with h1 | ⟨⟨u1, v1⟩, h1, h⟩
  · have c0 := accessStreamWrite_thrown _ _ _ _ h1
    exact c0
  have c1 := accessStreamWrite_counts _ _ _ _ h1
  rcases bind_eq_error _ _ _ h with h2 | ⟨⟨u2, v2⟩, h2, h⟩
  · exact c1.trans (accessStreamWrite_thrown _ _ _ _ h2)
  have c2 := c1.trans (accessStreamWrite_counts _ _ _ _ h2)
  rcases bind_eq_error _ _ _ h with h3 | ⟨⟨u3, v3⟩, h3, h⟩
  · exact c2.trans (accessStreamWrite_thrown _ _ _ _ h3)
  have c3 := c2.trans (accessStreamWrite_counts _ _ _ _ h3)
  rcases bind_eq_error _ _ _ h with h4 | ⟨⟨u4, v4⟩, h4, h⟩
  · exact c3.trans (accessStreamWrite_thrown _ _ _ _ h4)
  have c4 := c3.trans (accessStreamWrite_counts _ _ _ _ h4)
  rcases bind_eq_error _ _ _ h with h5 | ⟨⟨u5, v5⟩, h5, h⟩
  · exact c4.trans (accessStreamWrite_thrown _ _ _ _ h5)
  have c5 := c4.trans (accessStreamWrite_counts _ _ _ _ h5)
  split at h
  · rcases bind_eq_error _ _ _ h with h6 | ⟨⟨u6, v6⟩, h6, h⟩
    · exact c5.trans (accessStreamWrite_thrown _ _ _ _ h6)
    have c6 := c5.trans (accessStreamWrite_counts _ _ _ _ h6)
    rcases bind_eq_error _ _ _ h with h7 | ⟨⟨u7, v7⟩, h7, h⟩
    · exact c6.trans (accessStreamWrite_thrown _ _ _ _ h7)
    have c7 := c6.trans (accessStreamWrite_counts _ _ _ _ h7)
    rcases bind_eq_error _ _ _ h with h8 | ⟨⟨u8, v8⟩, h8, h⟩
    · exact c7.trans (log_thrown _ _ _ _ h8)
    simp [pure, Except.pure] at h
  · rcases bind_eq_error _ _ _ h with h6 | ⟨⟨u6, v6⟩, h6, h⟩
    · simp [pure, Except.pure] at h6
    simp only [pure, Except.pure, Except.ok.injEq, Prod.mk.injEq] at h6
    have c6 : SameCounts w v6 := by
      rw [← h6.2]
      exact c5
    rcases bind_eq_error _ _ _ h with h7 | ⟨⟨u7, v7⟩, h7, h⟩
    · exact c6.trans (log_thrown _ _ _ _ h7)
    simp [pure, Except.pure] at h

theorem error_world_counts (args : List JSValue) (w : World) :
    (worldOf ((Call.error args).run w)).logger.errorCount =
        w.logger.errorCount + (if (Call.error args).completes w then 1 else 0) ∧
      (worldOf ((Call.error args).run w)).logger.accessCount = w.logger.accessCount := by
  cases hx : Logger.error args w with
  | ok r =>
    have := error_counts args w r.2 r.1 hx
    simpa [Call.completes, Call.run, hx, worldOf] using this
  | error t =>
    have := error_thrown args w t.2 t.1 hx
    simpa [Call.completes, Call.run, hx, worldOf, SameCounts] using this

theorem access_world_counts (signature : String) (req : Request) (w : World) :
    (worldOf ((Call.access signature req).run w)).logger.errorCount = w.logger.errorCount ∧
      (worldOf ((Call.access signature req).run w)).logger.accessCount =
        w.logger.accessCount + (if (Call.access signature req).completes w then 1 else 0) := by
  cases hx : Logger.access signature req w with
  | ok r =>
    have := access_counts signature req w r.2 r.1 hx
    simpa [Call.completes, Call.run, hx, worldOf] using this
  | error t =>
    have := access_thrown signature req w t.2 t.1 hx
    simpa [Call.completes, Call.run, hx, worldOf, SameCounts] using this

theorem log_world_counts (args : List JSValue) (w : World) :
    SameCounts w (worldOf ((Call.log args).run w)) := by
  cases hx : Logger.log args w with
  | ok r =>
    have := log_counts args w r.2 r.1 hx
    simpa [Call.run, hx, worldOf] using this
  | error t =>
    have := log_thrown args w t.2 t.1 hx
    simpa [Call.run, hx, worldOf] using this

theorem runCatching_counts (calls : List Call) (w : World) :
    (runCatching calls w).logger.errorCount = w.logger.errorCount + completedErrorCalls calls w ∧
      (runCatching calls w).logger.accessCount =
        w.logger.accessCount + completedAccessCalls calls w := by
  induction calls generalizing w with
  | nil => simp [runCatching, completedErrorCalls, completedAccessCalls]
  | cons c rest ih =>
    have hr := ih (worldOf (c.run w))
    cases c with
    | error args =>
      have hc := error_world_counts args w
      simp only [runCatching, completedErrorCalls, completedAccessCalls]
      omega
    | access signature req =>
      have hc := access_world_counts signature req w
      simp only [runCatching, completedErrorCalls, completedAccessCalls]
      omega
    | log args =>
      have hc := log_world_counts args w
      unfold SameCounts at hc
      simp only [runCatching, completedErrorCalls, completedAccessCalls]
      omega

/-! ## Standard output under arbitrary arguments -/

theorem errorStreamWrite_stdout (c : JSValue) (w : World) :
    (worldOf (errorStreamWrite c w)).stdout = w.stdout := by
  unfold errorStreamWrite
  split
  · rfl
  · split <;> rfl

theorem accessStreamWrite_stdout (c : JSValue) (w : World) :
    (worldOf (accessStreamWrite c w)).stdout = w.stdout := by
  unfold accessStreamWrite
  split
  · rfl
  · split <;> rfl

theorem consoleStreamWrite_stdout (c : JSValue) (w : World) :
    (worldOf (consoleStreamWrite c w)).stdout = w.stdout := by
  unfold consoleStreamWrite
  split
  · rfl
  · split <;> rfl

theorem forEach_stdout (f : JSValue → World → Except Thrown (Unit × World))
    (hf : ∀ c w, (worldOf (f c w)).stdout = w.stdout)
    (args : List JSValue) (w : World) :
    (worldOf (forEach f args w)).stdout = w.stdout := by
  induction args generalizing w with
  | nil => rfl
  | cons a rest ih =>
    have ha := hf a w
    simp only [forEach]
    cases hfa : f a w with
    | error t =>
      rw [hfa] at ha
      exact ha
    | ok r =>
      rw [hfa] at ha
      exact (ih r.2).trans ha

/-- What an outcome says about the world it ends in. -/
theorem stdout_of_ok {α : Type} {x : Except Thrown (α × World)}
    {so : List (List ConsoleArg)} {w1 : World} {a : α}
    (h : x = .ok (a, w1)) (hx : (worldOf x).stdout = so) : w1.stdout = so := by
  subst h
  exact hx

theorem stdout_of_thrown {α : Type} {x : Except Thrown (α × World)}
    {so : List (List ConsoleArg)} {w1 : World} {e : JSError}
    (h : x = .error (e, w1)) (hx : (worldOf x).stdout = so) : w1.stdout = so := by
  subst h
  exact hx

/-- A `log` call that returns has made one `console.log` call. -/
theorem log_stdout_ok (args : List JSValue) (w w1 : World) (u : Unit)
    (h : Logger.log args w = .ok (u, w1)) :
    w1.stdout = w.stdout ++
      [(JSValue.str (w.clock w.reads).format :: args).map ConsoleArg.val] := by
  unfold Logger.log at h
  simp only [Logger.timestamp] at h
  obtain ⟨⟨u1, v1⟩, h1, h⟩ := bind_eq_ok _ _ _ h
  obtain ⟨⟨u2, v2⟩, h2, h⟩ := bind_eq_ok _ _ _ h
  obtain ⟨⟨u3, v3⟩, h3, h⟩ := bind_eq_ok _ _ _ h
  simp only [pure, Except.pure, Except.ok.injEq, Prod.mk.injEq] at h
  have c1 := stdout_of_ok h1 (consoleStreamWrite_stdout _ _)
  have c2 := stdout_of_ok h2 (forEach_stdout _ consoleStreamWrite_stdout _ _)
  have c3 := stdout_of_ok h3 (consoleStreamWrite_stdout _ _)
  simp only at c1 c2 c3
  rw [← h.2]
  simp only [LoggerJs.log]
  rw [c3, c2, c1]

/-- A `log` call that throws has made no `console.log` call. -/
theorem log_stdout_thrown (args : List JSValue) (w w1 : World) (e : JSError)
    (h : Logger.log args w = .error (e, w1)) : w1.stdout = w.stdout := by
  unfold Logger.log at h
  simp only [Logger.timestamp] at h
  rcases bind_eq_error _ _ _ h with h1 | ⟨⟨u1, v1⟩, h1, h⟩
  · have c0 := stdout_of_thrown h1 (consoleStreamWrite_stdout _ _)
    exact c0
  have c1 := stdout_of_ok h1 (consoleStreamWrite_stdout _ _)
  simp only at c1
  rcases bind_eq_error _ _ _ h with h2 | ⟨⟨u2, v2⟩, h2, h⟩
  · exact (stdout_of_thrown h2 (forEach_stdout _ consoleStreamWrite_stdout _ _)).trans c1
  have c2 := stdout_of_ok h2 (forEach_stdout _ consoleStreamWrite_stdout _ _)
  simp only at c2
  rcases bind_eq_error _ _ _ h with h3 | ⟨⟨u3, v3⟩, h3, h⟩
  · exact ((stdout_of_thrown h3 (consoleStreamWrite_stdout _ _)).trans c2).trans c1
  simp [pure, Except.pure] at h

/-- An `error` call that returns has made one `console.log` call. -/
theorem error_stdout_ok (args : List JSValue) (w w1 : World) (u : Unit)
    (h : Logger.error args w = .ok (u, w1)) : ∃ line, w1.stdout = w.stdout ++ [line] := by
  unfold Logger.error at h
  simp only [Logger.timestamp] at h
  obtain ⟨⟨u1, v1⟩, h1, h⟩ := bind_eq_ok _ _ _ h
  obtain ⟨⟨u2, v2⟩, h2, h⟩ := bind_eq_ok _ _ _ h
  obtain ⟨⟨u3, v3⟩, h3, h⟩ := bind_eq_ok _ _ _ h
  obtain ⟨⟨u4, v4⟩, h4, h⟩ := bind_eq_ok _ _ _ h
  obtain ⟨⟨u5, v5⟩, h5, h⟩ := bind_eq_ok _ _ _ h
  simp only [pure, Except.pure, Except.ok.injEq, Prod.mk.injEq] at h
  have c1 := stdout_of_ok h1 (errorStreamWrite_stdout _ _)
  have c2 := stdout_of_ok h2 (forEach_stdout _ errorStreamWrite_stdout _ _)
  have c3 := stdout_of_ok h3 (errorStreamWrite_stdout _ _)
  have c4 := stdout_of_ok h4 (consoleStreamWrite_stdout _ _)
  have c5 := log_stdout_ok _ _ _ _ h5
  simp only at c1 c2 c3 c4 c5
  rw [← h.2]
  simp only
  rw [c5, c4, c3, c2, c1]
  exact ⟨_, rfl⟩

/-- An `error` call that throws has made no `console.log` call. -/
theorem error_stdout_thrown (args : List JSValue) (w w1 : World) (e : JSError)
    (h : Logger.error args w = .error (e, w1)) : w1.stdout = w.stdout := by
  unfold Logger.error at h
  simp only [Logger.timestamp] at h
  rcases bind_eq_error _ _ _ h with h1 | ⟨⟨u1, v1⟩, h1, h⟩
  · have c0 := stdout_of_thrown h1 (errorStreamWrite_stdout _ _)
    exact c0
  have c1 := stdout_of_ok h1 (errorStreamWrite_stdout _ _)
  simp only at c1
  rcases bind_eq_error _ _ _ h with h2 | ⟨⟨u2, v2⟩, h2, h⟩
  · exact (stdout_of_thrown h2 (forEach_stdout _ errorStreamWrite_stdout _ _)).trans c1
  have c2 := (stdout_of_ok h2 (forEach_stdout _ errorStreamWrite_stdout _ _)).trans c1
  rcases bind_eq_error _ _ _ h with h3 | ⟨⟨u3, v3⟩, h3, h⟩
  · exact (stdout_of_thrown h3 (errorStreamWrite_stdout _ _)).trans c2
  have c3 := (stdout_of_ok h3 (errorStreamWrite_stdout _ _)).trans c2
  rcases bind_eq_error _ _ _ h with h4 | ⟨⟨u4, v4⟩, h4, h⟩
  · exact (stdout_of_thrown h4 (consoleStreamWrite_stdout _ _)).trans c3
  have c4 := (stdout_of_ok h4 (consoleStreamWrite_stdout _ _)).trans c3
  rcases bind_eq_error _ _ _ h with h5 | ⟨⟨u5, v5⟩, h5, h⟩
  · exact (log_stdout_thrown _ _ _ _ h5).trans c4
  simp [pure, Except.pure] at h

/-- An `access` call that returns has made one `console.log` call. -/
theorem access_stdout_ok (signature : String) (req : Request) (w w1 : World) (u : Unit)
    (h : Logger.access signature req w = .ok (u, w1)) :
    ∃ line, w1.stdout = w.stdout ++ [line] := by
  unfold Logger.access at h
  simp only [Logger.timestamp] at h
  obtain ⟨⟨u1, v1⟩, h1, h⟩ := bind_eq_ok _ _ _ h
  obtain ⟨⟨u2, v2⟩, h2, h⟩ := bind_eq_ok _ _ _ h
  obtain ⟨⟨u3, v3⟩, h3, h⟩ := bind_eq_ok _ _ _ h
  obtain ⟨⟨u4, v4⟩, h4, h⟩ := bind_eq_ok _ _ _ h
  obtain ⟨⟨u5, v5⟩, h5, h⟩ := bind_eq_ok _ _ _ h
  have c1 := stdout_of_ok h1 (accessStreamWrite_stdout _ _)
  have c2 := stdout_of_ok h2 (accessStreamWrite_stdout _ _)
  have c3 := stdout_of_ok h3 (accessStreamWrite_stdout _ _)
  have c4 := stdout_of_ok h4 (accessStreamWrite_stdout _ _)
  have c5 := stdout_of_ok h5 (accessStreamWrite_stdout _ _)
  simp only at c1 c2 c3 c4 c5
  have c15 : v5.stdout = w.stdout := by rw [c5, c4, c3, c2, c1]
  split at h
  · obtain ⟨⟨u6, v6⟩, h6, h⟩ := bind_eq_ok _ _ _ h
    obtain ⟨⟨u7, v7⟩, h7, h⟩ := bind_eq_ok _ _ _ h
    obtain ⟨⟨u8, v8⟩, h8, h⟩ := bind_eq_ok _ _ _ h
    simp only [pure, Except.pure, Except.ok.injEq, Prod.mk.injEq] at h
    have c6 := stdout_of_ok h6 (accessStreamWrite_stdout _ _)
    have c7 := stdout_of_ok h7 (accessStreamWrite_stdout _ _)
    have c8 := log_stdout_ok _ _ _ _ h8
    simp only at c6 c7 c8
    rw [← h.2]
    simp only
    rw [c8, c7, c6, c15]
    exact ⟨_, rfl⟩
  · obtain ⟨⟨u6, v6⟩, h6, h⟩ := bind_eq_ok _ _ _ h
    obtain ⟨⟨u7, v7⟩, h7, h⟩ := bind_eq_ok _ _ _ h
    simp only [pure, Except.pure, Except.ok.injEq, Prod.mk.injEq] at h h6
    have c7 := log_stdout_ok _ _ _ _ h7
    simp only at c7
    rw [← h.2]
    simp only
    rw [c7, ← h6.2, c15]
    exact ⟨_, rfl⟩

/-- An `access` call that throws has made no `console.log` call. -/
theorem access_stdout_thrown (signature : String) (req : Request) (w w1 : World)
    (e : JSError) (h : Logger.access signature req w = .error (e, w1)) :
    w1.stdout = w.stdout := by
  unfold Logger.access at h
  simp only [Logger.timestamp] at h
  rcases bind_eq_error _ _ _ h with h1 | ⟨⟨u1, v1⟩, h1, h⟩
  · have c0 := stdout_of_thrown h1 (accessStreamWrite_stdout _ _)
    exact c0
  have c1 := stdout_of_ok h1 (accessStreamWrite_stdout _ _)
  simp only at c1
  rcases bind_eq_error _ _ _ h with h2 | ⟨⟨u2, v2⟩, h2, h⟩
  · exact (stdout_of_thrown h2 (accessStreamWrite_stdout _ _)).trans c1
  have c2 := (stdout_of_ok h2 (accessStreamWrite_stdout _ _)).trans c1
  rcases bind_eq_error _ _ _ h with h3 | ⟨⟨u3, v3⟩, h3, h⟩
  · exact (stdout_of_thrown h3 (accessStreamWrite_stdout _ _)).trans c2
  have c3 := (stdout_of_ok h3 (accessStreamWrite_stdout _ _)).trans c2
  rcases bind_eq_error _ _ _ h with h4 | ⟨⟨u4, v4⟩, h4, h⟩
  · exact (stdout_of_thrown h4 (accessStreamWrite_stdout _ _)).trans c3
  have c4 := (stdout_of_ok h4 (accessStreamWrite_stdout _ _)).trans c3
  rcases bind_eq_error _ _ _ h with h5 | ⟨⟨u5, v5⟩, h5, h⟩
  · exact (stdout_of_thrown h5 (accessStreamWrite_stdout _ _)).trans c4
  have c5 := (stdout_of_ok h5 (accessStreamWrite_stdout _ _)).trans c4
  split at h
  · rcases bind_eq_error _ _ _ h with h6 | ⟨⟨u6, v6⟩, h6, h⟩
    · exact (stdout_of_thrown h6 (accessStreamWrite_stdout _ _)).trans c5
    have c6 := (stdout_of_ok h6 (accessStreamWrite_stdout _ _)).trans c5
    rcases bind_eq_error _ _ _ h with h7 | ⟨⟨u7, v7⟩, h7, h⟩
    · exact (stdout_of_thrown h7 (accessStreamWrite_stdout _ _)).trans c6
    have c7 := (stdout_of_ok h7 (accessStreamWrite_stdout _ _)).trans c6
    rcases bind_eq_error _ _ _ h with h8 | ⟨⟨u8, v8⟩, h8, h⟩
    · exact (log_stdout_thrown _ _ _ _ h8).trans c7
    simp [pure, Except.pure] at h
  · rcases bind_eq_error _ _ _ h with h6 | ⟨⟨u6, v6⟩, h6, h⟩
    · simp [pure, Except.pure] at h6
    simp only [pure, Except.pure, Except.ok.injEq, Prod.mk.injEq] at h6
    have c6 : v6.stdout = w.stdout := by
      rw [← h6.2]
      exact c5
    rcases bind_eq_error _ _ _ h with h7 | ⟨⟨u7, v7⟩, h7, h⟩
    · exact (log_stdout_thrown _ _ _ _ h7).trans c6
    simp [pure, Except.pure] at h

theorem stringify_eq_str (v : JSValue) (text : String) :
    JSON.stringify v = JSValue.str text ↔ serialize v = some text := by
  unfold JSON.stringify
  cases serialize v <;> simp

theorem runAll_counts (calls : List Call) (w w1 : World) (u : Unit)
    (h : runAll calls w = .ok (u, w1)) :
    w1.logger.errorCount = w.logger.errorCount + errorCalls calls ∧
      w1.logger.accessCount = w.logger.accessCount + accessCalls calls := by
  induction calls generalizing w with
  | nil =>
    simp only [runAll, Except.ok.injEq, Prod.mk.injEq] at h
    rw [← h.2]
    simp [errorCalls, accessCalls]
  | cons c rest ih =>
    simp only [runAll] at h
    cases hc : c.run w with
    | error e => simp [hc] at h
    | ok r =>
      rw [hc] at h
      have hr := ih r.2 h
      cases c with
      | error args =>
        have := error_counts args w r.2 r.1 hc
        simp only [errorCalls, accessCalls]
        omega
      | access signature req =>
        have := access_counts signature req w r.2 r.1 hc
        simp only [errorCalls, accessCalls]
        omega
      | log args =>
        have := log_counts args w r.2 r.1 hc
        simp only [errorCalls, accessCalls]
        unfold SameCounts at this
        omega

theorem init_counts (w w1 : World) (b : Bool) (h : Logger.init w = .ok (b, w1)) :
    SameCounts w w1 := by
  unfold Logger.init at h
  split at h
  · simp at h
  · rename_i u w2 hd
    simp only [Except.ok.injEq, Prod.mk.injEq] at h
    have h2 : SameCounts w w2 := by
      unfold initiateLogsDirectory at hd
      simp only at hd
      split at hd
      · simp only [Except.ok.injEq, Prod.mk.injEq] at hd
        rw [← hd.2]
        exact ⟨rfl, rfl⟩
      · split at hd
        · unfold makeLogsDirectory at hd
          simp only at hd
          split at hd
          · simp only [Except.ok.injEq, Prod.mk.injEq] at hd
            rw [← hd.2]
            exact ⟨rfl, rfl⟩
          · simp at hd
        · simp at hd
    rw [← h.2]
    exact h2

theorem errorStreamWrite_reject (v : JSValue) (hv : ∀ text, v ≠ JSValue.str text) (w : World)
    (es : WriteStream) (hE : w.logger.errorStream = some es) :
    ∃ e, errorStreamWrite v w = .error (e, w) ∧ e.name = "TypeError" := by
  cases v with
  | str text => exact absurd rfl (hv text)
  | null => exact ⟨nullChunk, by simp [errorStreamWrite, hE, WriteStream.write], rfl⟩
  | undefined => exact ⟨invalidChunk, by simp [errorStreamWrite, hE, WriteStream.write], rfl⟩
  | bool b => exact ⟨invalidChunk, by simp [errorStreamWrite, hE, WriteStream.write], rfl⟩
  | num n => exact ⟨invalidChunk, by simp [errorStreamWrite, hE, WriteStream.write], rfl⟩
  | arr items => exact ⟨invalidChunk, by simp [errorStreamWrite, hE, WriteStream.write], rfl⟩
  | obj fields => exact ⟨invalidChunk, by simp [errorStreamWrite, hE, WriteStream.write], rfl⟩

theorem consoleStreamWrite_reject (v : JSValue) (hv : ∀ text, v ≠ JSValue.str text) (w : World)
    (cs : WriteStream) (hC : w.logger.consoleStream = some cs) :
    ∃ e, consoleStreamWrite v w = .error (e, w) ∧ e.name = "TypeError" := by
  cases v with
  | str text => exact absurd rfl (hv text)
  | null => exact ⟨nullChunk, by simp [consoleStreamWrite, hC, WriteStream.write], rfl⟩
  | undefined => exact ⟨invalidChunk, by simp [consoleStreamWrite, hC, WriteStream.write], rfl⟩
  | bool b => exact ⟨invalidChunk, by simp [consoleStreamWrite, hC, WriteStream.write], rfl⟩
  | num n => exact ⟨invalidChunk, by simp [consoleStreamWrite, hC, WriteStream.write], rfl⟩
  | arr items => exact ⟨invalidChunk, by simp [consoleStreamWrite, hC, WriteStream.write], rfl⟩
  | obj fields => exact ⟨invalidChunk, by simp [consoleStreamWrite, hC, WriteStream.write], rfl⟩

/-- The loop over the arguments of `error` stops at the first one that is no
string, with the strings before it written. -/
theorem forEach_errorStreamWrite_stop (front : List String) (v : JSValue) (back : List JSValue)
    (hv : ∀ text, v ≠ JSValue.str text)
    (d : String) (ec ac : Nat) (es : WriteStream) (a c : Option WriteStream)
    (so : List (List ConsoleArg)) (fc : List FsCall) (st : String → Except JSError Unit)
    (mk : String → String → Except JSError Unit) (cl : Nat → Moment) (rd : Nat) :
    ∃ e, forEach errorStreamWrite (front.map JSValue.str ++ v :: back)
        ⟨⟨d, ec, ac, some es, a, c⟩, so, fc, st, mk, cl, rd⟩ =
      .error (e, ⟨⟨d, ec, ac, some { es with written := es.written ++ String.join front }, a, c⟩,
        so, fc, st, mk, cl, rd⟩) ∧ e.name = "TypeError" := by
  obtain ⟨e, he, hn⟩ := errorStreamWrite_reject v hv
    ⟨⟨d, ec, ac, some { es with written := es.written ++ String.join front }, a, c⟩,
      so, fc, st, mk, cl, rd⟩ _ rfl
  refine ⟨e, ?_, hn⟩
  rw [forEach_append, forEach_errorStreamWrite_strs]
  simp only [forEach, he]

/-- The loop over the arguments of `log` stops at the first one that is no
string, with the strings before it written. -/
theorem forEach_consoleStreamWrite_stop (front : List String) (v : JSValue)
    (back : List JSValue) (hv : ∀ text, v ≠ JSValue.str text)
    (d : String) (ec ac : Nat) (e0 a : Option WriteStream) (cs : WriteStream)
    (so : List (List ConsoleArg)) (fc : List FsCall) (st : String → Except JSError Unit)
    (mk : String → String → Except JSError Unit) (cl : Nat → Moment) (rd : Nat) :
    ∃ e, forEach consoleStreamWrite (front.map JSValue.str ++ v :: back)
        ⟨⟨d, ec, ac, e0, a, some cs⟩, so, fc, st, mk, cl, rd⟩ =
      .error (e, ⟨⟨d, ec, ac, e0, a,
          some { cs with written := cs.written ++ String.join front }⟩,
        so, fc, st, mk, cl, rd⟩) ∧ e.name = "TypeError" := by
  obtain ⟨e, he, hn⟩ := consoleStreamWrite_reject v hv
    ⟨⟨d, ec, ac, e0, a, some { cs with written := cs.written ++ String.join front }⟩,
      so, fc, st, mk, cl, rd⟩ _ rfl
  refine ⟨e, ?_, hn⟩
  rw [forEach_append, forEach_consoleStreamWrite_strs]
  simp only [forEach, he]

/-- The method `error` stops at the first argument that is no string. -/
theorem error_stop (front : List String) (v : JSValue) (back : List JSValue)
    (hv : ∀ text, v ≠ JSValue.str text)
    (d : String) (ec ac : Nat) (es : WriteStream) (a c : Option WriteStream)
    (so : List (List ConsoleArg)) (fc : List FsCall) (st : String → Except JSError Unit)
    (mk : String → String → Except JSError Unit) (cl : Nat → Moment) (rd : Nat) :
    ∃ e, Logger.error (front.map JSValue.str ++ v :: back)
        ⟨⟨d, ec, ac, some es, a, c⟩, so, fc, st, mk, cl, rd⟩ =
      .error (e, ⟨⟨d, ec, ac,
          some { es with
            written := es.written ++
              ("[" ++ toString ec ++ "]" ++ (cl rd).format ++ " " ++ String.join front) },
          a, c⟩,
        so, fc, st, mk, cl, rd + 1⟩) ∧ e.name = "TypeError" := by
  obtain ⟨e, he, hn⟩ := forEach_errorStreamWrite_stop front v back hv d ec ac
    { es with written := es.written ++ ("[" ++ toString ec ++ "]" ++ (cl rd).format ++ " ") }
    a c so fc st mk cl (rd + 1)
  refine ⟨e, ?_, hn⟩
  simp only [Logger.error, Logger.timestamp, bind, Except.bind, errorStreamWrite,
    WriteStream.write]
  simp only [he]
  simp [String.append_assoc]

/-- The method `log` stops at the first argument that is no string. -/
theorem log_stop (front : List String) (v : JSValue) (back : List JSValue)
    (hv : ∀ text, v ≠ JSValue.str text)
    (d : String) (ec ac : Nat) (e0 a : Option WriteStream) (cs : WriteStream)
    (so : List (List ConsoleArg)) (fc : List FsCall) (st : String → Except JSError Unit)
    (mk : String → String → Except JSError Unit) (cl : Nat → Moment) (rd : Nat) :
    ∃ e, Logger.log (front.map JSValue.str ++ v :: back)
        ⟨⟨d, ec, ac, e0, a, some cs⟩, so, fc, st, mk, cl, rd⟩ =
      .error (e, ⟨⟨d, ec, ac, e0, a,
          some { cs with
            written := cs.written ++ ((cl rd).format ++ " " ++ String.join front) }⟩,
        so, fc, st, mk, cl, rd + 1⟩) ∧ e.name = "TypeError" := by
  obtain ⟨e, he, hn⟩ := forEach_consoleStreamWrite_stop front v back hv d ec ac e0 a
    { cs with written := cs.written ++ ((cl rd).format ++ " ") } so fc st mk cl (rd + 1)
  refine ⟨e, ?_, hn⟩
  simp only [Logger.log, Logger.timestamp, bind, Except.bind, consoleStreamWrite,
    WriteStream.write]
  simp only [he]
  simp [String.append_assoc]

/-! ## The claims -/

/-- C1: on a logger whose error and console streams are open, with `errorCount = n`
and `t` the value `timestamp()` returns, `error(a1,..,ak)` on string arguments
returns, appends to the error sink exactly `[n]t `, the arguments one after
the other with nothing between them, a newline, sixty-four dashes and a
newline, appends `[n]t Error encountered` and a newline to the console sink
(followed by the line that the inner `log` call writes, with the timestamp
`t2` read by that call), and leaves `errorCount = n + 1`; the access sink and
`accessCount` are untouched. -/
theorem error_postcondition (w : World) (es cs : WriteStream) (args : List String)
    (hE : w.logger.errorStream = some es) (hC : w.logger.consoleStream = some cs) :
    ∃ w1, Logger.error (args.map JSValue.str) w = .ok ((), w1) ∧
      w1.logger.errorStream = some { es with
        written := es.written ++
          ("[" ++ toString w.logger.errorCount ++ "]" ++ (Logger.timestamp w).1 ++ " " ++
            String.join args ++ "\n" ++ String.mk (List.replicate 64 '-') ++ "\n") } ∧
      w1.logger.consoleStream = some { cs with
        written := cs.written ++
          ("[" ++ toString w.logger.errorCount ++ "]" ++ (Logger.timestamp w).1 ++
            " Error encountered\n") ++
          ((Logger.timestamp (Logger.timestamp w).2).1 ++ " " ++
            ("[" ++ toString w.logger.errorCount ++ "] Error") ++ "\n") } ∧
      w1.logger.errorCount = w.logger.errorCount + 1 ∧
      w1.logger.accessCount = w.logger.accessCount ∧
      w1.logger.accessStream = w.logger.accessStream := by
  obtain ⟨⟨d, ec, ac, e, a, c⟩, so, fc, st, mk, cl, rd⟩ := w
  simp only at hE hC
  subst hE hC
  refine ⟨_, error_closed args d ec ac es a cs so fc st mk cl rd, ?_, ?_, rfl, rfl, rfl⟩
  · simp [Logger.timestamp, separator_eq, String.append_assoc]
  · simp [Logger.timestamp, String.append_assoc]

/-- C1, at `error("boom")` with `errorCount = 3`. -/
theorem error_postcondition_witness :
    ∃ w1, Logger.error [JSValue.str "boom"] demoWorld = .ok ((), w1) ∧
      w1.logger.errorStream = some
        { path := "logs/error.log", flags := "a", observers := ["Error"],
          written :=
            "[3]03-07 1542 boom\n----------------------------------------------------------------\n" } ∧
      w1.logger.consoleStream = some
        { path := "logs/console.log", flags := "a", observers := ["Console"],
          written := "[3]03-07 1542 Error encountered\n03-07 1542 [3] Error\n" } ∧
      w1.logger.errorCount = 4 ∧
      w1.logger.accessCount = 0 ∧
      w1.logger.accessStream = some (demoStream "logs/access.log" "Access") :=
  error_postcondition demoWorld (demoStream "logs/error.log" "Error")
    (demoStream "logs/console.log" "Console") ["boom"] rfl rfl

/-- C2: on a logger whose access and console streams are open, with
`accessCount = n` and `t` the value `timestamp()` returns, for a request with
remote address `ip` whose `params` and `query` serialise to `ps` and `qs`,
`access(s, req)` returns and appends to the access sink exactly the line
`[n]t (s) ip`, the line `ps`, the line `qs` and then `tail`, where `tail` is
empty when `req.body` is `undefined` and is the line `JSON.stringify(req.body)`
when it is not. -/
theorem access_postcondition (w : World) (s cs : WriteStream) (signature : String)
    (req : Request) (ps qs : String)
    (hA : w.logger.accessStream = some s) (hC : w.logger.consoleStream = some cs)
    (hp : JSON.stringify req.params = JSValue.str ps)
    (hq : JSON.stringify req.query = JSValue.str qs) :
    ∃ w1 tail, Logger.access signature req w = .ok ((), w1) ∧
      w1.logger.accessStream = some { s with
        written := s.written ++
          ("[" ++ toString w.logger.accessCount ++ "]" ++ (Logger.timestamp w).1 ++
            " (" ++ signature ++ ") " ++ req.connection.remoteAddress ++ "\n" ++
            ps ++ "\n" ++ qs ++ "\n" ++ tail) } ∧
      (req.body = JSValue.undefined → tail = "") ∧
      (req.body ≠ JSValue.undefined →
        ∃ bs, JSON.stringify req.body = JSValue.str bs ∧ tail = bs ++ "\n") := by
  obtain ⟨⟨d, ec, ac, e, a, c⟩, so, fc, st, mk, cl, rd⟩ := w
  obtain ⟨⟨ip⟩, p, q, b⟩ := req
  simp only at hA hC hp hq
  subst hA hC
  rw [stringify_eq_str] at hp hq
  by_cases hb : b = JSValue.undefined
  · refine ⟨_, "", access_closed signature ip ps qs "" p q b hp hq (Or.inl ⟨hb, rfl⟩)
      d ec ac e s cs so fc st mk cl rd, ?_, fun _ => rfl, fun h => absurd hb h⟩
    simp [Logger.timestamp, String.append_assoc]
  · obtain ⟨bs, hbs⟩ := serialize_of_defined b hb
    refine ⟨_, bs ++ "\n", access_closed signature ip ps qs (bs ++ "\n") p q b hp hq
      (Or.inr ⟨bs, hbs, rfl⟩) d ec ac e s cs so fc st mk cl rd, ?_,
      fun h => absurd h hb, fun _ => ⟨bs, (stringify_eq_str b bs).2 hbs, rfl⟩⟩
    simp [Logger.timestamp, String.append_assoc]

/-- C2, at `access("login", req)` with remote address `1.2.3.4`, `params` `{}`,
`query` `{a:1}` and no `body`: the header, `{}`, `{"a":1}`, and nothing else. -/
theorem access_postcondition_witness :
    ∃ w1, Logger.access "login" demoRequest demoWorld = .ok ((), w1) ∧
      w1.logger.accessStream = some
        { path := "logs/access.log", flags := "a", observers := ["Access"],
          written := "[0]03-07 1542 (login) 1.2.3.4\n\x7b\x7d\n\x7b\"a\":1\x7d\n" } := by
  obtain ⟨w1, tail, h, hw, h0, _⟩ :=
    access_postcondition demoWorld (demoStream "logs/access.log" "Access")
      (demoStream "logs/console.log" "Console") "login" demoRequest "\x7b\x7d" "\x7b\"a\":1\x7d"
      rfl rfl rfl rfl
  refine ⟨w1, h, ?_⟩
  rw [hw, h0 rfl]
  rfl

/-- C6: on a logger whose console stream is open, with `t` the value
`timestamp()` returns, `log(a1,..,ak)` on string arguments returns, appends to
the console sink exactly `t`, one space, the arguments one after the other with
nothing between them and one newline, makes exactly one `console.log` call,
with the arguments `t, a1, .., ak` in that order, and leaves the error sink,
the access sink and both counters as they were. -/
theorem log_postcondition (w : World) (cs : WriteStream) (args : List String)
    (hC : w.logger.consoleStream = some cs) :
    ∃ w1, Logger.log (args.map JSValue.str) w = .ok ((), w1) ∧
      w1.logger.consoleStream = some { cs with
        written := cs.written ++ ((Logger.timestamp w).1 ++ " " ++ String.join args ++ "\n") } ∧
      w1.stdout = w.stdout ++
        [(JSValue.str (Logger.timestamp w).1 :: args.map JSValue.str).map ConsoleArg.val] ∧
      w1.logger.errorStream = w.logger.errorStream ∧
      w1.logger.accessStream = w.logger.accessStream ∧
      w1.logger.errorCount = w.logger.errorCount ∧
      w1.logger.accessCount = w.logger.accessCount := by
  obtain ⟨⟨d, ec, ac, e, a, c⟩, so, fc, st, mk, cl, rd⟩ := w
  simp only at hC
  subst hC
  exact ⟨_, log_closed args d ec ac e a cs so fc st mk cl rd, rfl, rfl, rfl, rfl, rfl, rfl⟩

/-- C6, at `log("listening on ", "8080")`. -/
theorem log_postcondition_witness :
    ∃ w1, Logger.log [JSValue.str "listening on ", JSValue.str "8080"] demoWorld = .ok ((), w1) ∧
      w1.logger.consoleStream = some
        { path := "logs/console.log", flags := "a", observers := ["Console"],
          written := "03-07 1542 listening on 8080\n" } ∧
      w1.stdout =
        [[ConsoleArg.val (.str "03-07 1542"), ConsoleArg.val (.str "listening on "),
          ConsoleArg.val (.str "8080")]] ∧
      w1.logger.errorStream = some (demoStream "logs/error.log" "Error") ∧
      w1.logger.accessStream = some (demoStream "logs/access.log" "Access") ∧
      w1.logger.errorCount = 3 ∧
      w1.logger.accessCount = 0 :=
  log_postcondition demoWorld (demoStream "logs/console.log" "Console")
    ["listening on ", "8080"] rfl

/-- C3: a newly constructed logger has both counters at zero; after `init` and
any sequence of `error`, `access` and `log` calls that all return, whatever
their arguments, `errorCount` is the number of `error` calls and `accessCount`
the number of `access` calls; from any world a returned sequence adds these
numbers to the counters; a returned `error` call adds one to `errorCount` and
leaves `accessCount`, a returned `access` call adds one to `accessCount` and
leaves `errorCount`, and a returned `log` call leaves both. A call that throws
leaves both counters as they were: when the caller catches what is thrown and
goes on, the counters advance by the numbers of `error` and `access` calls
that returned. -/
theorem counter_invariant :
    (∀ dir, (Logger.new dir).errorCount = 0 ∧ (Logger.new dir).accessCount = 0) ∧
    (∀ (w0 w1 w2 : World) (dir : Option String) (calls : List Call),
      w0.logger = Logger.new dir → Logger.init w0 = .ok (true, w1) →
      runAll calls w1 = .ok ((), w2) →
      w2.logger.errorCount = errorCalls calls ∧ w2.logger.accessCount = accessCalls calls) ∧
    (∀ (w w1 : World) (calls : List Call), runAll calls w = .ok ((), w1) →
      w1.logger.errorCount = w.logger.errorCount + errorCalls calls ∧
      w1.logger.accessCount = w.logger.accessCount + accessCalls calls) ∧
    (∀ (args : List JSValue) (w w1 : World), Logger.error args w = .ok ((), w1) →
      w1.logger.errorCount = w.logger.errorCount + 1 ∧
      w1.logger.accessCount = w.logger.accessCount) ∧
    (∀ (signature : String) (req : Request) (w w1 : World),
      Logger.access signature req w = .ok ((), w1) →
      w1.logger.errorCount = w.logger.errorCount ∧
      w1.logger.accessCount = w.logger.accessCount + 1) ∧
    (∀ (args : List JSValue) (w w1 : World), Logger.log args w = .ok ((), w1) →
      w1.logger.errorCount = w.logger.errorCount ∧
      w1.logger.accessCount = w.logger.accessCount) ∧
    (∀ (calls : List Call) (w : World),
      (runCatching calls w).logger.errorCount =
        w.logger.errorCount + completedErrorCalls calls w ∧
      (runCatching calls w).logger.accessCount =
        w.logger.accessCount + completedAccessCalls calls w) := by
  refine ⟨fun dir => ⟨rfl, rfl⟩, ?_, ?_, ?_, ?_, ?_, runCatching_counts⟩
  · intro w0 w1 w2 dir calls h0 hi hr
    have hc := init_counts w0 w1 true hi
    have h := runAll_counts calls w1 w2 () hr
    unfold SameCounts at hc
    rw [h0] at hc
    simp only [Logger.new] at hc
    omega
  · intro w w1 calls h
    exact runAll_counts calls w w1 () h
  · intro args w w1 h
    exact error_counts args w w1 () h
  · intro signature req w w1 h
    exact access_counts signature req w w1 () h
  · intro args w w1 h
    exact log_counts args w w1 () h

/-- C3, at a fresh logger, `init`, then two errors, one access and one log; and
at a logger three errors in, on a sequence of five calls of which one `error`
and one `access` return. -/
theorem counter_invariant_witness :
    Logger.init freshWorld = .ok (true, worldOf (Logger.init freshWorld)) ∧
    runAll demoCalls (worldOf (Logger.init freshWorld)) =
      .ok ((), worldOf (runAll demoCalls (worldOf (Logger.init freshWorld)))) ∧
    ((worldOf (runAll demoCalls (worldOf (Logger.init freshWorld)))).logger.errorCount = 2 ∧
      (worldOf (runAll demoCalls (worldOf (Logger.init freshWorld)))).logger.accessCount = 1) ∧
    ((runCatching mixedCalls demoWorld).logger.errorCount = 3 + 1 ∧
      (runCatching mixedCalls demoWorld).logger.accessCount = 0 + 1) :=
  ⟨rfl, rfl,
    counter_invariant.2.1 freshWorld (worldOf (Logger.init freshWorld))
      (worldOf (runAll demoCalls (worldOf (Logger.init freshWorld)))) none demoCalls
      rfl rfl rfl,
    counter_invariant.2.2.2.2.2.2 mixedCalls demoWorld⟩

/-- C5: the outcome of `init` by what `stat` and `mkdir` answer for the
configured directory `dir`. (i) `stat` succeeds: `init` resolves to `true`, the
`fs` calls made are `stat(dir)` and the three `createWriteStream`, so `mkdir` is
not called. (ii) `stat` fails with code `ENOENT` and `mkdir` succeeds: `init`
resolves to `true`, and `mkdir(dir, '0740')` is called once, between `stat` and
the three `createWriteStream`. (iii) `stat` fails with an error `e` of another
code: `init` rejects with `e`, the only `fs` call is `stat(dir)`, and the logger
is as it was, so no sink is opened. (iv) `stat` fails with code `ENOENT` and
`mkdir` fails with `e`: `init` rejects with `e`, the `fs` calls are `stat` and
`mkdir`, and the logger is as it was. -/
theorem init_outcomes (w : World) :
    (∀ u, w.stat w.logger.dir = .ok u →
      ∃ w1, Logger.init w = .ok (true, w1) ∧
        w1.fsCalls = w.fsCalls ++
          [FsCall.stat w.logger.dir,
           FsCall.createWriteStream "logs/error.log" "a",
           FsCall.createWriteStream "logs/access.log" "a",
           FsCall.createWriteStream "logs/console.log" "a"] ∧
        w1.logger.errorStream = some (createWriteStream "logs/error.log" "Error") ∧
        w1.logger.accessStream = some (createWriteStream "logs/access.log" "Access") ∧
        w1.logger.consoleStream = some (createWriteStream "logs/console.log" "Console")) ∧
    (∀ e0 u, w.stat w.logger.dir = .error e0 → e0.code = "ENOENT" →
      w.mkdir w.logger.dir "0740" = .ok u →
      ∃ w1, Logger.init w = .ok (true, w1) ∧
        w1.fsCalls = w.fsCalls ++
          [FsCall.stat w.logger.dir,
           FsCall.mkdir w.logger.dir "0740",
           FsCall.createWriteStream "logs/error.log" "a",
           FsCall.createWriteStream "logs/access.log" "a",
           FsCall.createWriteStream "logs/console.log" "a"] ∧
        w1.logger.errorStream = some (createWriteStream "logs/error.log" "Error") ∧
        w1.logger.accessStream = some (createWriteStream "logs/access.log" "Access") ∧
        w1.logger.consoleStream = some (createWriteStream "logs/console.log" "Console")) ∧
    (∀ e, w.stat w.logger.dir = .error e → e.code ≠ "ENOENT" →
      ∃ w1, Logger.init w = .error (e, w1) ∧
        w1.fsCalls = w.fsCalls ++ [FsCall.stat w.logger.dir] ∧
        w1.logger = w.logger) ∧
    (∀ e0 e, w.stat w.logger.dir = .error e0 → e0.code = "ENOENT" →
      w.mkdir w.logger.dir "0740" = .error e →
      ∃ w1, Logger.init w = .error (e, w1) ∧
        w1.fsCalls = w.fsCalls ++ [FsCall.stat w.logger.dir, FsCall.mkdir w.logger.dir "0740"] ∧
        w1.logger = w.logger) := by
  refine ⟨?_, ?_, ?_, ?_⟩
  · intro u hs
    simp [Logger.init, initiateLogsDirectory, hs, log]
  · intro e0 u hs hc hm
    simp [Logger.init, initiateLogsDirectory, makeLogsDirectory, hs, hc, hm, log]
  · intro e hs hc
    simp [Logger.init, initiateLogsDirectory, hs, hc, log]
  · intro e0 e hs hc hm
    simp [Logger.init, initiateLogsDirectory, makeLogsDirectory, hs, hc, hm, log]

/-- C5, on the four file systems: directory there, directory missing, `stat`
refused with `EACCES`, directory missing on a read-only file system. -/
theorem init_outcomes_witness :
    (∃ w1, Logger.init freshWorld = .ok (true, w1) ∧
      w1.fsCalls =
        [FsCall.stat "logs",
         FsCall.createWriteStream "logs/error.log" "a",
         FsCall.createWriteStream "logs/access.log" "a",
         FsCall.createWriteStream "logs/console.log" "a"] ∧
      w1.logger.errorStream = some (createWriteStream "logs/error.log" "Error") ∧
      w1.logger.accessStream = some (createWriteStream "logs/access.log" "Access") ∧
      w1.logger.consoleStream = some (createWriteStream "logs/console.log" "Console")) ∧
    (∃ w1, Logger.init missingDirWorld = .ok (true, w1) ∧
      w1.fsCalls =
        [FsCall.stat "logs",
         FsCall.mkdir "logs" "0740",
         FsCall.createWriteStream "logs/error.log" "a",
         FsCall.createWriteStream "logs/access.log" "a",
         FsCall.createWriteStream "logs/console.log" "a"] ∧
      w1.logger.errorStream = some (createWriteStream "logs/error.log" "Error") ∧
      w1.logger.accessStream = some (createWriteStream "logs/access.log" "Access") ∧
      w1.logger.consoleStream = some (createWriteStream "logs/console.log" "Console")) ∧
    (∃ w1, Logger.init deniedWorld = .error (fsError "EACCES", w1) ∧
      w1.fsCalls = [FsCall.stat "logs"] ∧
      w1.logger = Logger.new none) ∧
    (∃ w1, Logger.init readOnlyWorld = .error (fsError "EROFS", w1) ∧
      w1.fsCalls = [FsCall.stat "logs", FsCall.mkdir "logs" "0740"] ∧
      w1.logger = Logger.new none) :=
  ⟨(init_outcomes freshWorld).1 () rfl,
   (init_outcomes missingDirWorld).2.1 (fsError "ENOENT") () rfl rfl rfl,
   (init_outcomes deniedWorld).2.2.1 (fsError "EACCES") rfl (by decide),
   (init_outcomes readOnlyWorld).2.2.2 (fsError "ENOENT") (fsError "EROFS") rfl rfl rfl⟩

/-- C4, as stated, fails: in `zeroBodyRequest` both `params` (the empty object)
and `body` (the number `0`) are there, and `erroredRequest` writes two entries,
numbered `[3]` and `[4]`, and leaves `errorCount` at 5, not 6: the test
`if (req.body)` is falsy for `0`. -/
theorem erroredRequest_present_counterexample :
    zeroBodyRequest.params ≠ JSValue.undefined ∧
    zeroBodyRequest.body ≠ JSValue.undefined ∧
    demoWorld.logger.errorCount = 3 ∧
    ∃ w1, Logger.erroredRequest demoError zeroBodyRequest demoWorld = .ok ((), w1) ∧
      w1.logger.errorCount = 5 ∧
      writtenTo w1.logger.errorStream =
        "[3]03-07 1542 Request errored: Error: boom\n    at handler" ++
          "\n----------------------------------------------------------------\n" ++
        "[4]03-07 1542 \x7b\x7d" ++
          "\n----------------------------------------------------------------\n" :=
  ⟨nofun, nofun, rfl, _, rfl, rfl, rfl⟩

/-- C4, amended: on a logger whose error and console streams are open, with
`errorCount = n`, for every error `err` and every request whose `params` and
`body` are both truthy, `erroredRequest(err, req)` returns and appends exactly
three entries to the error sink, each with its own header and its own line of
sixty-four dashes, numbered `[n]`, `[n+1]`, `[n+2]` in that order, carrying
`Request errored: ` followed by `err.stack`, then `JSON.stringify(req.params)`,
then `JSON.stringify(req.body)`; `errorCount` ends at `n + 3`. Each entry has
the timestamp read by its own `error` call. -/
theorem erroredRequest_entries (w : World) (es cs : WriteStream) (err : JSError)
    (req : Request)
    (hE : w.logger.errorStream = some es) (hC : w.logger.consoleStream = some cs)
    (hp : truthy req.params = true) (hb : truthy req.body = true) :
    ∃ w1 ps bs, Logger.erroredRequest err req w = .ok ((), w1) ∧
      JSON.stringify req.params = JSValue.str ps ∧
      JSON.stringify req.body = JSValue.str bs ∧
      w1.logger.errorStream = some { es with
        written := es.written ++
          (("[" ++ toString w.logger.errorCount ++ "]" ++ (w.clock w.reads).format ++ " " ++
              ("Request errored: " ++ err.stack) ++
              "\n" ++ String.mk (List.replicate 64 '-') ++ "\n") ++
            ("[" ++ toString (w.logger.errorCount + 1) ++ "]" ++
              (w.clock (w.reads + 2)).format ++ " " ++ ps ++
              "\n" ++ String.mk (List.replicate 64 '-') ++ "\n") ++
            ("[" ++ toString (w.logger.errorCount + 2) ++ "]" ++
              (w.clock (w.reads + 4)).format ++ " " ++ bs ++
              "\n" ++ String.mk (List.replicate 64 '-') ++ "\n")) } ∧
      w1.logger.errorCount = w.logger.errorCount + 3 := by
  obtain ⟨⟨d, ec, ac, e, a, c⟩, so, fc, st, mk, cl, rd⟩ := w
  obtain ⟨conn, p, q, b⟩ := req
  simp only at hE hC hp hb
  subst hE hC
  obtain ⟨ps, hps⟩ := serialize_of_defined p (defined_of_truthy p hp)
  obtain ⟨bs, hbs⟩ := serialize_of_defined b (defined_of_truthy b hb)
  refine ⟨_, ps, bs,
    erroredRequest_closed err conn p q b ps bs hp hb hps hbs d ec ac es a cs so fc st mk cl rd,
    (stringify_eq_str p ps).2 hps, (stringify_eq_str b bs).2 hbs, ?_, rfl⟩
  simp [separator_eq, String.append_assoc]

/-- C4, amended, at a request with `params` `{id:7}` and `body` `{name:"x"}`. -/
theorem erroredRequest_entries_witness :
    ∃ w1, Logger.erroredRequest demoError postRequest demoWorld = .ok ((), w1) ∧
      writtenTo w1.logger.errorStream =
        "[3]03-07 1542 Request errored: Error: boom\n    at handler" ++
          "\n----------------------------------------------------------------\n" ++
        "[4]03-07 1542 \x7b\"id\":7\x7d" ++
          "\n----------------------------------------------------------------\n" ++
        "[5]03-07 1542 \x7b\"name\":\"x\"\x7d" ++
          "\n----------------------------------------------------------------\n" ∧
      w1.logger.errorCount = 6 := by
  obtain ⟨w1, ps, bs, h, hps, hbs, hw, hn⟩ :=
    erroredRequest_entries demoWorld (demoStream "logs/error.log" "Error")
      (demoStream "logs/console.log" "Console") demoError postRequest rfl rfl rfl rfl
  have h1 : ps = "\x7b\"id\":7\x7d" := by
    have : JSValue.str "\x7b\"id\":7\x7d" = JSValue.str ps := hps
    injection this with h2
    exact h2.symm
  have h3 : bs = "\x7b\"name\":\"x\"\x7d" := by
    have : JSValue.str "\x7b\"name\":\"x\"\x7d" = JSValue.str bs := hbs
    injection this with h2
    exact h2.symm
  subst h1 h3
  refine ⟨w1, h, ?_, hn⟩
  rw [hw]
  set_option maxRecDepth 100000 in rfl

/-- C7, as stated, fails: `error("boom")` appends two lines to the console sink
and makes one `console.log` call; the line `[3]03-07 1542 Error encountered` is
written to the console stream directly and is not handed to standard output. -/
theorem error_line_not_mirrored_counterexample :
    consoleLines demoWorld = 0 ∧ demoWorld.stdout.length = 0 ∧
    ∃ w1, Logger.error [JSValue.str "boom"] demoWorld = .ok ((), w1) ∧
      writtenTo w1.logger.consoleStream =
        "[3]03-07 1542 Error encountered\n" ++ "03-07 1542 [3] Error\n" ∧
      consoleLines w1 = 2 ∧
      w1.stdout.length = 1 ∧
      w1.stdout =
        [[ConsoleArg.val (.str "03-07 1542"), ConsoleArg.val (.str "[3] Error")]] :=
  ⟨by decide, rfl, _, rfl, rfl, by decide, rfl, rfl⟩

/-- C7, amended: what goes to the console sink through `log` is handed to
standard output by the same call, once. On a logger whose console stream is
open: `log` on string arguments appends the one entry `t a1..ak` and makes the
one `console.log` call `(t, a1, .., ak)`. `access`, with the access stream open
and on a request whose `params` and `query` are there, appends the one entry
`t2 [n] Access` and makes the one call `(t2, "[n] Access")`. `error`, with the
error stream open and on string arguments, makes the one call
`(t2, "[n] Error")` for the entry `t2 [n] Error`, and before it appends
`[n]t Error encountered` to the console sink directly, which standard output
does not receive. Here `t` is the timestamp the method reads and `t2` the one
its inner `log` call reads. Whatever the arguments, a call of `error`, `access`
or `log` that returns has made exactly one `console.log` call, and a call that
throws has made none. -/
theorem console_mirror (w : World) (cs : WriteStream)
    (hC : w.logger.consoleStream = some cs) :
    (∀ args : List String,
      ∃ w1, Logger.log (args.map JSValue.str) w = .ok ((), w1) ∧
        writtenTo w1.logger.consoleStream = cs.written ++
          ((w.clock w.reads).format ++ " " ++ String.join args ++ "\n") ∧
        w1.stdout = w.stdout ++
          [(JSValue.str (w.clock w.reads).format :: args.map JSValue.str).map
            ConsoleArg.val]) ∧
    (∀ (s : WriteStream) (signature : String) (req : Request),
      w.logger.accessStream = some s →
      req.params ≠ JSValue.undefined → req.query ≠ JSValue.undefined →
      ∃ w1, Logger.access signature req w = .ok ((), w1) ∧
        writtenTo w1.logger.consoleStream = cs.written ++
          ((w.clock (w.reads + 1)).format ++ " " ++
            ("[" ++ toString w.logger.accessCount ++ "] Access") ++ "\n") ∧
        w1.stdout = w.stdout ++
          [[ConsoleArg.val (.str (w.clock (w.reads + 1)).format),
            ConsoleArg.val (.str ("[" ++ toString w.logger.accessCount ++ "] Access"))]]) ∧
    (∀ (es : WriteStream) (args : List String),
      w.logger.errorStream = some es →
      ∃ w1, Logger.error (args.map JSValue.str) w = .ok ((), w1) ∧
        writtenTo w1.logger.consoleStream = cs.written ++
          (("[" ++ toString w.logger.errorCount ++ "]" ++ (w.clock w.reads).format ++
              " Error encountered\n") ++
            ((w.clock (w.reads + 1)).format ++ " " ++
              ("[" ++ toString w.logger.errorCount ++ "] Error") ++ "\n")) ∧
        w1.stdout = w.stdout ++
          [[ConsoleArg.val (.str (w.clock (w.reads + 1)).format),
            ConsoleArg.val (.str ("[" ++ toString w.logger.errorCount ++ "] Error"))]]) ∧
    (∀ c : Call,
      (∀ w1, c.run w = .ok ((), w1) → ∃ line, w1.stdout = w.stdout ++ [line]) ∧
      (∀ e w1, c.run w = .error (e, w1) → w1.stdout = w.stdout)) := by
  obtain ⟨⟨d, ec, ac, e, a, c⟩, so, fc, st, mk, cl, rd⟩ := w
  simp only at hC
  subst hC
  refine ⟨?_, ?_, ?_, ?_⟩
  · intro args
    exact ⟨_, log_closed args d ec ac e a cs so fc st mk cl rd, rfl, rfl⟩
  · intro s signature req hA hp hq
    obtain ⟨⟨ip⟩, p, q, b⟩ := req
    simp only at hA hp hq
    subst hA
    obtain ⟨ps, hps⟩ := serialize_of_defined p hp
    obtain ⟨qs, hqs⟩ := serialize_of_defined q hq
    by_cases hb : b = JSValue.undefined
    · exact ⟨_, access_closed signature ip ps qs "" p q b hps hqs (Or.inl ⟨hb, rfl⟩)
        d ec ac e s cs so fc st mk cl rd, rfl, rfl⟩
    · obtain ⟨bs, hbs⟩ := serialize_of_defined b hb
      exact ⟨_, access_closed signature ip ps qs (bs ++ "\n") p q b hps hqs
        (Or.inr ⟨bs, hbs, rfl⟩) d ec ac e s cs so fc st mk cl rd, rfl, rfl⟩
  · intro es args hE
    simp only at hE
    subst hE
    refine ⟨_, error_closed args d ec ac es a cs so fc st mk cl rd, ?_, rfl⟩
    simp [writtenTo, String.append_assoc]
  · intro call
    cases call with
    | error args =>
      exact ⟨fun w1 h => error_stdout_ok args _ w1 () h,
        fun e1 w1 h => error_stdout_thrown args _ w1 e1 h⟩
    | access signature req =>
      exact ⟨fun w1 h => access_stdout_ok signature req _ w1 () h,
        fun e1 w1 h => access_stdout_thrown signature req _ w1 e1 h⟩
    | log args =>
      exact ⟨fun w1 h => ⟨_, log_stdout_ok args _ w1 () h⟩,
        fun e1 w1 h => log_stdout_thrown args _ w1 e1 h⟩

/-- C7, amended, at `log("hello")`, `access("login", req)` and `error("boom")`,
which return, and at `log(42)` and `access` on a request without `params`,
which throw. -/
theorem console_mirror_witness :
    (∃ w1, Logger.log [JSValue.str "hello"] demoWorld = .ok ((), w1) ∧
      writtenTo w1.logger.consoleStream = "03-07 1542 hello\n" ∧
      w1.stdout = [[ConsoleArg.val (.str "03-07 1542"), ConsoleArg.val (.str "hello")]]) ∧
    (∃ w1, Logger.access "login" demoRequest demoWorld = .ok ((), w1) ∧
      writtenTo w1.logger.consoleStream = "03-07 1542 [0] Access\n" ∧
      w1.stdout = [[ConsoleArg.val (.str "03-07 1542"), ConsoleArg.val (.str "[0] Access")]]) ∧
    (∃ w1, Logger.error [JSValue.str "boom"] demoWorld = .ok ((), w1) ∧
      writtenTo w1.logger.consoleStream =
        "[3]03-07 1542 Error encountered\n" ++ "03-07 1542 [3] Error\n" ∧
      w1.stdout = [[ConsoleArg.val (.str "03-07 1542"), ConsoleArg.val (.str "[3] Error")]]) ∧
    (Logger.log [JSValue.num 42] demoWorld =
        .error (invalidChunk, worldOf (Logger.log [JSValue.num 42] demoWorld)) ∧
      (worldOf (Logger.log [JSValue.num 42] demoWorld)).stdout = []) ∧
    (Logger.access "login" bareRequest demoWorld =
        .error (invalidChunk, worldOf (Logger.access "login" bareRequest demoWorld)) ∧
      (worldOf (Logger.access "login" bareRequest demoWorld)).stdout = []) :=
  ⟨(console_mirror demoWorld (demoStream "logs/console.log" "Console") rfl).1 ["hello"],
   (console_mirror demoWorld (demoStream "logs/console.log" "Console") rfl).2.1
     (demoStream "logs/access.log" "Access") "login" demoRequest rfl nofun nofun,
   (console_mirror demoWorld (demoStream "logs/console.log" "Console") rfl).2.2.1
     (demoStream "logs/error.log" "Error") ["boom"] rfl,
   ⟨rfl, ((console_mirror demoWorld (demoStream "logs/console.log" "Console") rfl).2.2.2
     (Call.log [JSValue.num 42])).2 invalidChunk _ rfl⟩,
   ⟨rfl, ((console_mirror demoWorld (demoStream "logs/console.log" "Console") rfl).2.2.2
     (Call.access "login" bareRequest)).2 invalidChunk _ rfl⟩⟩

/-- C8: the handler returned by `internalError(id, res)` makes exactly one
`error` call, with the single argument `<id>: <err>`, and then replies on `res`;
on a logger whose error and console streams are open, with `errorCount = n`, it
returns, the error sink receives the one entry numbered `[n]` carrying that
string, `errorCount` becomes `n + 1`, and the value returned is `res` with
status 500 and the fixed body sent. For any two errors the response is the
same: nothing of the error reaches it. -/
theorem internalError_handler (w : World) (es cs : WriteStream) (id : String)
    (res : Response)
    (hE : w.logger.errorStream = some es) (hC : w.logger.consoleStream = some cs) :
    (∀ (err : JSError) (v : World),
      Logger.internalError id res err v =
        match Logger.error [JSValue.str (id ++ ": " ++ err.toString)] v with
        | .ok (_, v1) =>
          .ok ((res.status 500).send "This incident has been logged and will be fixed soon!", v1)
        | .error e => .error e) ∧
    (∀ err : JSError,
      ∃ w1, Logger.internalError id res err w =
          .ok ({ statusCode := some 500,
                 sent := res.sent ++ ["This incident has been logged and will be fixed soon!"] },
               w1) ∧
        w1.logger.errorStream = some { es with
          written := es.written ++
            ("[" ++ toString w.logger.errorCount ++ "]" ++ (Logger.timestamp w).1 ++ " " ++
              (id ++ ": " ++ err.toString) ++
              "\n" ++ String.mk (List.replicate 64 '-') ++ "\n") } ∧
        w1.logger.errorCount = w.logger.errorCount + 1) ∧
    (∀ err1 err2 : JSError,
      ∃ r w1 w2, Logger.internalError id res err1 w = .ok (r, w1) ∧
        Logger.internalError id res err2 w = .ok (r, w2) ∧
        r.statusCode = some 500 ∧
        r.sent = res.sent ++ ["This incident has been logged and will be fixed soon!"]) := by
  obtain ⟨⟨d, ec, ac, e, a, c⟩, so, fc, st, mk, cl, rd⟩ := w
  simp only at hE hC
  subst hE hC
  have hclosed := fun (x : String) => error_closed [x] d ec ac es a cs so fc st mk cl rd
  simp only [List.map_cons, List.map_nil] at hclosed
  have hrun : ∀ err : JSError,
      Logger.internalError id res err ⟨⟨d, ec, ac, some es, a, some cs⟩, so, fc, st, mk, cl, rd⟩ =
        .ok ((res.status 500).send "This incident has been logged and will be fixed soon!",
          ⟨⟨d, ec + 1, ac,
            some { es with
              written := es.written ++
                ("[" ++ toString ec ++ "]" ++ (cl rd).format ++ " " ++
                  String.join [id ++ ": " ++ err.toString] ++ separator) },
            a,
            some { cs with
              written := cs.written ++
                ("[" ++ toString ec ++ "]" ++ (cl rd).format ++ " Error encountered\n" ++
                  ((cl (rd + 1)).format ++ " " ++ ("[" ++ toString ec ++ "] Error") ++
                    "\n")) }⟩,
            so ++ [[ConsoleArg.val (.str (cl (rd + 1)).format),
                    ConsoleArg.val (.str ("[" ++ toString ec ++ "] Error"))]],
            fc, st, mk, cl, rd + 2⟩) := by
    intro err
    simp only [Logger.internalError, bind, Except.bind, pure, Except.pure, hclosed]
  refine ⟨?_, ?_, ?_⟩
  · intro err v
    simp only [Logger.internalError, bind, Except.bind, pure, Except.pure]
    cases Logger.error [JSValue.str (id ++ ": " ++ err.toString)] v <;> rfl
  · intro err
    refine ⟨_, hrun err, ?_, rfl⟩
    simp [Logger.timestamp, separator_eq, join_cons, join_nil, String.append_assoc]
  · intro err1 err2
    exact ⟨_, _, _, hrun err1, hrun err2, rfl, rfl⟩

/-- C8, at the handler `internalError("db", res)` invoked with the error `boom`. -/
theorem internalError_handler_witness :
    ∃ w1, Logger.internalError "db" demoResponse demoError demoWorld =
        .ok ({ statusCode := some 500,
               sent := ["This incident has been logged and will be fixed soon!"] }, w1) ∧
      w1.logger.errorStream = some
        { path := "logs/error.log", flags := "a", observers := ["Error"],
          written :=
            "[3]03-07 1542 db: Error: boom\n----------------------------------------------------------------\n" } ∧
      w1.logger.errorCount = 4 :=
  (internalError_handler demoWorld (demoStream "logs/error.log" "Error")
    (demoStream "logs/console.log" "Console") "db" demoResponse rfl rfl).2.1 demoError

/-- C9, as stated, fails: `error(42)` and `log(42)` throw a `TypeError` from the
stream, after the header alone has been written; the number is neither
converted to `"42"` nor written. -/
theorem nonstring_argument_counterexample :
    (∃ w1, Logger.error [JSValue.num 42] demoWorld = .error (invalidChunk, w1) ∧
      writtenTo w1.logger.errorStream = "[3]03-07 1542 " ∧
      w1.logger.errorCount = 3) ∧
    (∃ w1, Logger.log [JSValue.num 42] demoWorld = .error (invalidChunk, w1) ∧
      writtenTo w1.logger.consoleStream = "03-07 1542 " ∧
      w1.stdout = []) :=
  ⟨⟨_, rfl, rfl, rfl⟩, ⟨_, rfl, rfl, rfl⟩⟩

/-- C9, amended: `error` and `log` hand each argument to the stream as it is,
with no conversion. When every argument is a string, the call returns and the
sink receives the arguments one after the other with nothing between them.
When the arguments are strings up to an argument `v` that is a number, a
boolean, `null`, `undefined`, an array or a plain object (the values of
`JSValue` that are no string), the call throws the `TypeError` with which the
stream rejects `v`: the header and the strings before `v` have been written,
nothing of `v` or of the arguments after it is, the counter is not advanced
and standard output receives nothing. Byte chunks (`Buffer`, typed arrays,
`DataView`), which the stream accepts, are not values of `JSValue` and the
statement does not cover them. -/
theorem nonstring_argument_rejected (w : World) (es cs : WriteStream)
    (hE : w.logger.errorStream = some es) (hC : w.logger.consoleStream = some cs) :
    (∀ args : List String,
      (∃ w1, Logger.error (args.map JSValue.str) w = .ok ((), w1) ∧
        writtenTo w1.logger.errorStream = es.written ++
          ("[" ++ toString w.logger.errorCount ++ "]" ++ (w.clock w.reads).format ++ " " ++
            String.join args ++ separator)) ∧
      (∃ w1, Logger.log (args.map JSValue.str) w = .ok ((), w1) ∧
        writtenTo w1.logger.consoleStream = cs.written ++
          ((w.clock w.reads).format ++ " " ++ String.join args ++ "\n"))) ∧
    (∀ (front : List String) (v : JSValue) (back : List JSValue),
      (∀ text, v ≠ JSValue.str text) →
      (∃ e w1, Logger.error (front.map JSValue.str ++ v :: back) w = .error (e, w1) ∧
        e.name = "TypeError" ∧
        writtenTo w1.logger.errorStream = es.written ++
          ("[" ++ toString w.logger.errorCount ++ "]" ++ (w.clock w.reads).format ++ " " ++
            String.join front) ∧
        w1.logger.consoleStream = some cs ∧
        w1.logger.errorCount = w.logger.errorCount ∧
        w1.stdout = w.stdout) ∧
      (∃ e w1, Logger.log (front.map JSValue.str ++ v :: back) w = .error (e, w1) ∧
        e.name = "TypeError" ∧
        writtenTo w1.logger.consoleStream = cs.written ++
          ((w.clock w.reads).format ++ " " ++ String.join front) ∧
        w1.stdout = w.stdout)) := by
  obtain ⟨⟨d, ec, ac, e, a, c⟩, so, fc, st, mk, cl, rd⟩ := w
  simp only at hE hC
  subst hE hC
  refine ⟨?_, ?_⟩
  · intro args
    exact ⟨⟨_, error_closed args d ec ac es a cs so fc st mk cl rd, rfl⟩,
      ⟨_, log_closed args d ec ac (some es) a cs so fc st mk cl rd, rfl⟩⟩
  · intro front v back hv
    obtain ⟨e1, h1, n1⟩ := error_stop front v back hv d ec ac es a (some cs) so fc st mk cl rd
    obtain ⟨e2, h2, n2⟩ := log_stop front v back hv d ec ac (some es) a cs so fc st mk cl rd
    exact ⟨⟨e1, _, h1, n1, rfl, rfl, rfl, rfl⟩, ⟨e2, _, h2, n2, rfl, rfl⟩⟩

/-- C9, amended, at `error("code ", 42, "!")` and `log("code ", 42, "!")`. -/
theorem nonstring_argument_rejected_witness :
    (∃ e w1, Logger.error [JSValue.str "code ", JSValue.num 42, JSValue.str "!"] demoWorld =
        .error (e, w1) ∧
      e.name = "TypeError" ∧
      writtenTo w1.logger.errorStream = "[3]03-07 1542 code " ∧
      w1.logger.consoleStream = some (demoStream "logs/console.log" "Console") ∧
      w1.logger.errorCount = 3 ∧
      w1.stdout = []) ∧
    (∃ e w1, Logger.log [JSValue.str "code ", JSValue.num 42, JSValue.str "!"] demoWorld =
        .error (e, w1) ∧
      e.name = "TypeError" ∧
      writtenTo w1.logger.consoleStream = "03-07 1542 code " ∧
      w1.stdout = []) :=
  (nonstring_argument_rejected demoWorld (demoStream "logs/error.log" "Error")
    (demoStream "logs/console.log" "Console") rfl rfl).2 ["code "] (JSValue.num 42)
    [JSValue.str "!"] nofun

/-- C10, as stated, fails: `bareRequest` exposes `connection.remoteAddress` and
has no `params`; `access` writes the header, then hands
`JSON.stringify(undefined)`, which is `undefined`, to the stream, and throws;
`accessCount` stays at 0. -/
theorem access_absent_params_counterexample :
    ∃ w1, Logger.access "login" bareRequest demoWorld = .error (invalidChunk, w1) ∧
      writtenTo w1.logger.accessStream = "[0]03-07 1542 (login) 1.2.3.4\n" ∧
      w1.logger.accessCount = 0 :=
  ⟨_, rfl, rfl, rfl⟩

/-- C10, amended: on a logger whose access and console streams are open, for
every request that exposes `connection.remoteAddress`, `params` and `query`,
whether or not its `body` is there, `access(signature, request)` returns,
writes the header line to the access sink first, and adds exactly one to
`accessCount`; an absent body never makes the call fail. -/
theorem access_optional_body (w : World) (s cs : WriteStream) (signature : String)
    (req : Request)
    (hA : w.logger.accessStream = some s) (hC : w.logger.consoleStream = some cs)
    (hp : req.params ≠ JSValue.undefined) (hq : req.query ≠ JSValue.undefined) :
    ∃ w1 rest, Logger.access signature req w = .ok ((), w1) ∧
      writtenTo w1.logger.accessStream = s.written ++
        ("[" ++ toString w.logger.accessCount ++ "]" ++ (Logger.timestamp w).1 ++
          " (" ++ signature ++ ") " ++ req.connection.remoteAddress ++ "\n") ++ rest ∧
      w1.logger.accessCount = w.logger.accessCount + 1 ∧
      w1.logger.errorCount = w.logger.errorCount := by
  obtain ⟨⟨d, ec, ac, e, a, c⟩, so, fc, st, mk, cl, rd⟩ := w
  obtain ⟨⟨ip⟩, p, q, b⟩ := req
  simp only at hA hC hp hq
  subst hA hC
  obtain ⟨ps, hps⟩ := serialize_of_defined p hp
  obtain ⟨qs, hqs⟩ := serialize_of_defined q hq
  by_cases hb : b = JSValue.undefined
  · refine ⟨_, ps ++ "\n" ++ qs ++ "\n" ++ "",
      access_closed signature ip ps qs "" p q b hps hqs (Or.inl ⟨hb, rfl⟩)
        d ec ac e s cs so fc st mk cl rd, ?_, rfl, rfl⟩
    simp [writtenTo, Logger.timestamp, String.append_assoc]
  · obtain ⟨bs, hbs⟩ := serialize_of_defined b hb
    refine ⟨_, ps ++ "\n" ++ qs ++ "\n" ++ (bs ++ "\n"),
      access_closed signature ip ps qs (bs ++ "\n") p q b hps hqs (Or.inr ⟨bs, hbs, rfl⟩)
        d ec ac e s cs so fc st mk cl rd, ?_, rfl, rfl⟩
    simp [writtenTo, Logger.timestamp, String.append_assoc]

/-- C10, amended, at a request with `params` and `query` and no `body`, and at
one with a `body`. -/
theorem access_optional_body_witness :
    (∃ w1 rest, Logger.access "login" demoRequest demoWorld = .ok ((), w1) ∧
      writtenTo w1.logger.accessStream =
        "" ++ "[0]03-07 1542 (login) 1.2.3.4\n" ++ rest ∧
      w1.logger.accessCount = 1 ∧
      w1.logger.errorCount = 3) ∧
    (∃ w1 rest, Logger.access "save" postRequest demoWorld = .ok ((), w1) ∧
      writtenTo w1.logger.accessStream =
        "" ++ "[0]03-07 1542 (save) 1.2.3.4\n" ++ rest ∧
      w1.logger.accessCount = 1 ∧
      w1.logger.errorCount = 3) :=
  ⟨access_optional_body demoWorld (demoStream "logs/access.log" "Access")
    (demoStream "logs/console.log" "Console") "login" demoRequest rfl rfl nofun nofun,
   access_optional_body demoWorld (demoStream "logs/access.log" "Access")
    (demoStream "logs/console.log" "Console") "save" postRequest rfl rfl nofun nofun⟩

end LoggerJs
